import Mathlib

/-!
# WaveNode: time mapping, readiness and block rendering

A shallow embedding of
`modules/tracktion_engine/playback/graph/tracktion_WaveNode.cpp`.

Conventions of the embedding:

* C++ `double` and `float` values (times, rates, gains, samples) are exact
  rationals `ℚ`; the constant `0.4f` is `2/5` and `0.5` is `1/2`.
* `int64_t` and `int` values are mathematical integers `Int`; where the source
  converts between integer widths the conversion is written out (`toInt32`,
  `toSizeT`).  Block sizes and channel counts, which are never negative, are
  `Nat`.
* A channel of a buffer is a function from the sample index to the sample, the
  way the source indexes a `float*`; an `AudioBlock` carries its channel and
  sample counts next to that data.
* Member functions that mutate the node return the new node; functions of
  other modules that the file calls (`createReader`, `readSamples`,
  `LagrangeInterpolator::processAdding`, `timeToSample`, ...) are parameters,
  collected in `Externals`, or arguments standing for their outcome.
-/

namespace tracktion_engine

/-- A `juce::Range<T>` or `EditTimeRange`: a start and an end. -/
structure Range (α : Type) where
  getStart : α
  getEnd : α

/-- The `AudioFile` a node plays, as far as this file reads it. -/
structure AudioFile where
  isNull : Bool
  getNumChannels : Int

/-- A `juce::AudioChannelSet`, of which this file only reads the size. -/
structure AudioChannelSet where
  size : Nat

/-- The `LiveClipLevel` of the clip: the values its two getters return. -/
structure LiveClipLevel where
  getLeftAndRightGains : ℚ × ℚ
  getGainIncludingMute : ℚ

/-- The `tracktion_graph::PlayHead` flags read by the node. -/
structure PlayHead where
  isUserDragging : Bool

/-- The `tracktion_graph::PlayHeadState` of the current block. -/
structure PlayHeadState where
  playHead : PlayHead
  isContiguousWithPreviousBlock : Bool
  isFirstBlockOfLoop : Bool

/-- An `AudioFileCache::Reader` as seen through the calls this file makes. -/
structure Reader where
  getSampleRate : ℚ
  getNumChannels : Int
  readPosition : Int
  loopRange : Option (Range Int)

/-- The `tracktion_graph::NodeProperties` reported by a node. -/
structure NodeProperties where
  hasAudio : Bool
  hasMidi : Bool
  numberOfChannels : Int
deriving DecidableEq

/-- The `tracktion_graph::PlaybackInitialisationInfo` fields read here. -/
structure PlaybackInitialisationInfo where
  sampleRate : ℚ

/-- A multi-channel block of samples (`juce::dsp::AudioBlock<float>`). -/
structure AudioBlock where
  numChannels : Nat
  numSamples : Nat
  data : Nat → Nat → ℚ

/-- The `ProcessContext` of a `process` call, as far as `processSection` reads it. -/
structure ProcessContext where
  audio : AudioBlock

/-- The struct `WaveNode::PerChannelState`: a resampler (of an abstract state type `R`)
and the last sample emitted on the channel. -/
structure PerChannelState (R : Type) where
  resampler : R
  lastSample : ℚ

/-- The data members of `WaveNode`.  `reader` is `none` for a null pointer. -/
structure WaveNode (R : Type) where
  playHeadState : PlayHeadState
  editPosition : Range ℚ
  loopSection : Range ℚ
  offset : ℚ
  originalSpeedRatio : ℚ
  isOfflineRender : Bool
  audioFile : AudioFile
  clipLevel : LiveClipLevel
  channelsToUse : AudioChannelSet
  outputSampleRate : ℚ
  editPositionInSamples : Range Int
  audioFileSampleRate : ℚ
  reader : Option Reader
  channelState : List (PerChannelState R)

/-- The functions of other modules that `WaveNode` calls and whose bodies are
not part of this file.

* `timeToSample time sampleRate` is `tracktion_graph::timeToSample`;
* `isEmpty` is `EditTimeRange::isEmpty`;
* `newResampler` is a `juce::LagrangeInterpolator` after `reset()`;
* `processAdding resampler ratio src dest numSamples gain` is
  `juce::LagrangeInterpolator::processAdding`: it returns the resampler
  afterwards and the destination channel afterwards;
* `readSamples reader num numChannels channels timeoutMs` is
  `AudioFileCache::Reader::readSamples`, reading at the reader's position into
  a scratch buffer: it returns the success flag, the scratch buffer's
  contents and the reader afterwards. -/
structure Externals (R : Type) where
  timeToSample : ℚ → ℚ → Int
  isEmpty : Range ℚ → Bool
  newResampler : R
  processAdding : R → ℚ → (Nat → ℚ) → (Nat → ℚ) → Nat → ℚ → R × (Nat → ℚ)
  readSamples : Reader → Int → Nat → AudioChannelSet → Nat → Bool × (Nat → Nat → ℚ) × Reader

/-! ## Conversions -/

/-- The cast `(int64_t) x` of a floating-point value: truncation toward zero. -/
def toInt64 (x : ℚ) : Int :=
  if 0 ≤ x then ⌊x⌋ else ⌈x⌉

/-- The cast `(int) x` of a 64-bit integer: the value modulo `2^32`, signed. -/
def toInt32 (x : Int) : Int :=
  (x + 2 ^ 31) % 2 ^ 32 - 2 ^ 31

/-- The cast `(size_t) x` of a 64-bit signed integer: a non-negative value is
unchanged and a negative one wraps around `2^64`. -/
def toSizeT (x : Int) : Nat :=
  if 0 ≤ x then x.toNat else (x + 2 ^ 64).toNat

/-- Modelled from the spec: `juce::jlimit (lowerLimit, upperLimit, value)`, a
JUCE library function that is not under the source tree, "clamps" the value:
it is the lower limit below the range, the upper limit above it and the value
itself inside. -/
def jlimit (lowerLimit upperLimit valueToConstrain : Int) : Int :=
  if valueToConstrain < lowerLimit then lowerLimit
  else if upperLimit < valueToConstrain then upperLimit
  else valueToConstrain

/-- Modelled from the spec: `tracktion_graph::sampleToTime` is not under the
source tree; the specification's time mapper converts a timeline sample to
seconds as `timelineSample / outputRate`. -/
def sampleToTime (samplePosition : Int) (sampleRate : ℚ) : ℚ :=
  samplePosition / sampleRate

/-- The function `sampleToTime` on a range of samples, end point by end point. -/
def sampleRangeToTime (r : Range Int) (sampleRate : ℚ) : Range ℚ :=
  ⟨sampleToTime r.getStart sampleRate, sampleToTime r.getEnd sampleRate⟩

/-! ## Node properties and readiness -/

variable {R : Type}

/-- The member function `WaveNode::getNodeProperties`. -/
def WaveNode.getNodeProperties (node : WaveNode R) : NodeProperties :=
  { hasAudio := true
    hasMidi := false
    numberOfChannels :=
      jlimit 1 (max (node.channelsToUse.size : Int) 1) node.audioFile.getNumChannels }

/-- The member function `WaveNode::updateFileSampleRate`: the returned flag and the
node afterwards. -/
def WaveNode.updateFileSampleRate (ext : Externals R) (node : WaveNode R) :
    Bool × WaveNode R :=
  match node.reader with
  | none => (false, node)
  | some reader =>
    let node1 := { node with audioFileSampleRate := reader.getSampleRate }
    if node1.audioFileSampleRate ≤ 0 then (false, node1)
    else if ! ext.isEmpty node1.loopSection then
      (true, { node1 with
        reader := some { reader with
          loopRange := some
            ⟨ext.timeToSample node1.loopSection.getStart node1.audioFileSampleRate,
             ext.timeToSample node1.loopSection.getEnd node1.audioFileSampleRate⟩ } })
    else (true, node1)

/-- The member function `WaveNode::prepareToPlay`; `created` is what `createReader` returns. -/
def WaveNode.prepareToPlay (ext : Externals R) (node : WaveNode R)
    (info : PlaybackInitialisationInfo) (created : Option Reader) : WaveNode R :=
  let node1 := { node with
    reader := created
    outputSampleRate := info.sampleRate
    editPositionInSamples :=
      ⟨ext.timeToSample node.editPosition.getStart info.sampleRate,
       ext.timeToSample node.editPosition.getEnd info.sampleRate⟩ }
  let node2 := (node1.updateFileSampleRate ext).2
  let node3 := { node2 with channelState := [] }
  match node3.reader with
  | none => node3
  | some reader =>
    { node3 with
      channelState :=
        List.replicate (max (node3.channelsToUse.size : Int) reader.getNumChannels).toNat
          { resampler := ext.newResampler, lastSample := 0 } }

/-- The member function `WaveNode::isReadyToProcess`: the returned flag and the node afterwards;
`created` is what `createReader` returns if it is called. -/
def WaveNode.isReadyToProcess (ext : Externals R) (node : WaveNode R)
    (created : Option Reader) : Bool × WaveNode R :=
  if node.audioFile.isNull then (true, node)
  else
    let node1 :=
      match node.reader with
      | none => { node with reader := created }
      | some _ => node
    match node1.reader with
    | none => (false, node1)
    | some _ =>
      if node1.audioFileSampleRate = 0 then
        let probe := node1.updateFileSampleRate ext
        if ! probe.1 then (false, probe.2) else (true, probe.2)
      else (true, node1)

/-- The node after a sequence of `isReadyToProcess` calls, one for each element
of the list; the element is what `createReader` returns if that call makes the
attempt. -/
def WaveNode.isReadyToProcessCalls (ext : Externals R) (node : WaveNode R) :
    List (Option Reader) → WaveNode R
  | [] => node
  | created :: rest =>
    WaveNode.isReadyToProcessCalls ext (node.isReadyToProcess ext created).2 rest

/-- The sample rates a node holds are not negative: the stored file sample rate,
which starts at `0` for "not known" and is only ever assigned a reader's sample
rate, and the rate its reader reports, which is `0` until the reader knows the
file's rate. -/
def WaveNode.ratesNonNegative (node : WaveNode R) : Prop :=
  0 ≤ node.audioFileSampleRate ∧ ∀ r, node.reader = some r → 0 ≤ r.getSampleRate

/-! ## Time mapping -/

/-- The member function `WaveNode::editTimeToFileSample`. -/
def WaveNode.editTimeToFileSample (node : WaveNode R) (editTime : ℚ) : Int :=
  toInt64 ((editTime - (node.editPosition.getStart - node.offset))
            * node.originalSpeedRatio * node.audioFileSampleRate + 1 / 2)

/-- The member function `WaveNode::editPositionToFileSample`. -/
def WaveNode.editPositionToFileSample (node : WaveNode R) (timelinePosition : Int) : Int :=
  node.editTimeToFileSample (timelinePosition / node.outputSampleRate)

/-- The inverse of the offset/speed formula as the specification's round-trip
property words it: a file sample mapped back to a timeline sample position,
`(f / (speedRatio * fileSampleRate) + (editStart - offset)) * outputSampleRate`.
The source has no such function. -/
def WaveNode.fileSampleToEditPosition (node : WaveNode R) (fileSample : Int) : ℚ :=
  ((fileSample : ℚ) / (node.originalSpeedRatio * node.audioFileSampleRate)
    + (node.editPosition.getStart - node.offset)) * node.outputSampleRate

/-! ## Rendering a block -/

/-- The value `lastSampleFadeLength` has after the read in
`WaveNode::processSection`; `readOk` is what `readSamples` returned. -/
def lastSampleFadeLength (readOk : Bool) (playHeadState : PlayHeadState)
    (numSamples : Nat) : Nat :=
  if readOk then
    if ! playHeadState.isContiguousWithPreviousBlock && ! playHeadState.isFirstBlockOfLoop then
      min numSamples (if playHeadState.playHead.isUserDragging then 40 else 10)
    else 0
  else min numSamples 40

/-- The array `gains` of `WaveNode::processSection`, as a pair. -/
def gains (clipLevel : LiveClipLevel) (numChannels : Nat) (isUserDragging : Bool) : ℚ × ℚ :=
  let g :=
    if numChannels = 2 then clipLevel.getLeftAndRightGains
    else (clipLevel.getGainIncludingMute, clipLevel.getGainIncludingMute)
  if isUserDragging then (g.1 * (2 / 5), g.2 * (2 / 5)) else g

/-- The crossfade loop `for (int i = 0; i < lastSampleFadeLength; ++i)`, run
for its first `i` iterations on the channel `dest`. -/
def fadeLoop (fadeLength : Nat) (lastSample : ℚ) : Nat → (Nat → ℚ) → (Nat → ℚ)
  | 0, dest => dest
  | i + 1, dest =>
    let dest1 := fadeLoop fadeLength lastSample i dest
    let alpha : ℚ := (i : ℚ) / (fadeLength : ℚ)
    Function.update dest1 i (alpha * dest1 i + lastSample * (1 - alpha))

/-- The body of the channel loop for a channel that has a state: resample
adding into `dest`, crossfade, remember the last sample. -/
def processChannel (ext : Externals R) (ratio : ℚ) (src dest : Nat → ℚ) (numSamples : Nat)
    (gain : ℚ) (fadeLength : Nat) (state : PerChannelState R) :
    PerChannelState R × (Nat → ℚ) :=
  let resampled := ext.processAdding state.resampler ratio src dest numSamples gain
  let dest1 := resampled.2
  let dest2 := if 0 < fadeLength then fadeLoop fadeLength state.lastSample fadeLength dest1 else dest1
  ({ resampler := resampled.1, lastSample := dest2 (numSamples - 1) }, dest2)

/-- The loop `for (int channel = 0; channel < numChannels; ++channel)`, run for
its first `channel` iterations on the channel states and the destination data. -/
def channelLoop (ext : Externals R) (ratio : ℚ) (fileData : Nat → Nat → ℚ) (numSamples : Nat)
    (g : ℚ × ℚ) (fadeLength : Nat) :
    Nat → List (PerChannelState R) × (Nat → Nat → ℚ) →
      List (PerChannelState R) × (Nat → Nat → ℚ)
  | 0, s => s
  | channel + 1, s =>
    let s1 := channelLoop ext ratio fileData numSamples g fadeLength channel s
    match s1.1[channel]? with
    | some state =>
      let r := processChannel ext ratio (fileData channel) (s1.2 channel) numSamples
        (if channel % 2 = 0 then g.1 else g.2) fadeLength state
      (s1.1.set channel r.1, Function.update s1.2 channel r.2)
    | none =>
      (s1.1, Function.update s1.2 channel
        (fun i => if i < numSamples then 0 else s1.2 channel i))

/-- The call `getSubBlock (newOffset, newLength).clear()` on a block: the samples
`newOffset ≤ i < newOffset + newLength` of every channel become zero. -/
def AudioBlock.clearSubBlock (b : AudioBlock) (newOffset newLength : Nat) : AudioBlock :=
  { b with
    data := fun c i =>
      if c < b.numChannels ∧ newOffset ≤ i ∧ i < newOffset + newLength then 0 else b.data c i }

/-- The first early return of `WaveNode::processSection`: no reader, or the
section lies before the edit range or at/after its end. -/
def WaveNode.sectionIsOutside (node : WaveNode R) (timelineRange : Range Int) : Prop :=
  node.reader.isNone = true
    ∨ (sampleRangeToTime timelineRange node.outputSampleRate).getEnd ≤ node.editPosition.getStart
    ∨ (sampleRangeToTime timelineRange node.outputSampleRate).getStart ≥ node.editPosition.getEnd

instance (node : WaveNode R) (timelineRange : Range Int) :
    Decidable (node.sectionIsOutside timelineRange) := by
  unfold WaveNode.sectionIsOutside
  infer_instance

/-- The guard `audioFileSampleRate == 0.0 && ! updateFileSampleRate()`: the
flag is `true` when processing goes on, and the node is the node afterwards. -/
def WaveNode.probeFileSampleRate (ext : Externals R) (node : WaveNode R) : Bool × WaveNode R :=
  if node.audioFileSampleRate = 0 then node.updateFileSampleRate ext else (true, node)

/-- The local `numFileSamples` of `WaveNode::processSection`. -/
def WaveNode.numFileSamples (node : WaveNode R) (timelineRange : Range Int) : Int :=
  let sectionEditTime := sampleRangeToTime timelineRange node.outputSampleRate
  let fileStart := node.editTimeToFileSample sectionEditTime.getStart
  let fileEnd := node.editTimeToFileSample sectionEditTime.getEnd
  toInt32 (fileEnd - fileStart)

/-- The local `ratio` of `WaveNode::processSection`.  For an empty block
(`numSamples = 0`) the C++ quotient is infinite or not a number, while this
quotient is `0`; the statements below are about blocks that hold samples. -/
def WaveNode.ratio (node : WaveNode R) (timelineRange : Range Int) (numSamples : Nat) : ℚ :=
  (node.numFileSamples timelineRange : ℚ) / (numSamples : ℚ)

/-- The call `reader->setReadPosition (fileStart)` followed by
`reader->readSamples (numFileSamples + 2, ...)`. -/
def WaveNode.readBlock (ext : Externals R) (node : WaveNode R) (reader : Reader)
    (timelineRange : Range Int) (numChannels : Nat) : Bool × (Nat → Nat → ℚ) × Reader :=
  let sectionEditTime := sampleRangeToTime timelineRange node.outputSampleRate
  let fileStart := node.editTimeToFileSample sectionEditTime.getStart
  ext.readSamples { reader with readPosition := fileStart }
    (node.numFileSamples timelineRange + 2) numChannels node.channelsToUse
    (if node.isOfflineRender then 5000 else 3)

/-- The contents of `fileData` after the read: what was read, or zeros after
`fileData.buffer.clear()` when the read failed. -/
def fileDataAfterRead (read : Bool × (Nat → Nat → ℚ) × Reader) : Nat → Nat → ℚ :=
  if read.1 then read.2.1 else fun _ _ => 0

/-- The last block of `WaveNode::processSection`: silence what lies before or
after the edit range in samples. -/
def clearOutsideEditRange (editPositionInSamples timelineRange : Range Int)
    (destBuffer : AudioBlock) : AudioBlock :=
  let numSamplesToClearAtStart : Int := editPositionInSamples.getStart - timelineRange.getStart
  let numSamplesToClearAtEnd : Int := timelineRange.getEnd - editPositionInSamples.getEnd
  let dest1 :=
    if 0 < numSamplesToClearAtStart then
      destBuffer.clearSubBlock 0 (toSizeT numSamplesToClearAtStart)
    else destBuffer
  if 0 < numSamplesToClearAtEnd then
    dest1.clearSubBlock (toSizeT ((destBuffer.numSamples : Int) - numSamplesToClearAtEnd))
      (toSizeT numSamplesToClearAtEnd)
  else dest1

/-- The member function `WaveNode::processSection`: the node and the destination
buffer afterwards. -/
def WaveNode.processSection (ext : Externals R) (node : WaveNode R) (pc : ProcessContext)
    (timelineRange : Range Int) : WaveNode R × AudioBlock :=
  if node.sectionIsOutside timelineRange then (node, pc.audio)
  else
    let probe := node.probeFileSampleRate ext
    if ! probe.1 then (probe.2, pc.audio)
    else
      let node1 := probe.2
      match node1.reader with
      | none => (node1, pc.audio)
      | some reader =>
        let destBuffer := pc.audio
        let numSamples := destBuffer.numSamples
        let numChannels := destBuffer.numChannels
        let read := node1.readBlock ext reader timelineRange numChannels
        let fadeLength := lastSampleFadeLength read.1 node1.playHeadState numSamples
        let fileData := fileDataAfterRead read
        let g := gains node1.clipLevel numChannels node1.playHeadState.playHead.isUserDragging
        let ratio := node1.ratio timelineRange numSamples
        if ratio ≤ 0 then ({ node1 with reader := some read.2.2 }, destBuffer)
        else
          let looped := channelLoop ext ratio fileData numSamples g fadeLength numChannels
            (node1.channelState, destBuffer.data)
          ({ node1 with reader := some read.2.2, channelState := looped.1 },
            clearOutsideEditRange node1.editPositionInSamples timelineRange
              { destBuffer with data := looped.2 })

/-! ## A concrete clip used to instantiate the statements -/

/-- A stand-in for the external calls: `timeToSample` rounds half up, the
resampler adds `gain * src i` to the first `numSamples` destination samples,
and a read succeeds or fails as `readOk` says, delivering the constant `1`. -/
def exampleExternals (readOk : Bool) : Externals Unit where
  timeToSample := fun t sampleRate => ⌊t * sampleRate + 1 / 2⌋
  isEmpty := fun r => decide (r.getEnd ≤ r.getStart)
  newResampler := ()
  processAdding := fun _ _ src dest numSamples gain =>
    ((), fun i => if i < numSamples then dest i + gain * src i else dest i)
  readSamples := fun reader num _ _ _ =>
    (readOk, fun _ _ => 1, { reader with readPosition := reader.readPosition + num })

/-- A reader of a file with the given sample rate and two channels. -/
def exampleReader (sampleRate : ℚ) : Reader :=
  { getSampleRate := sampleRate, getNumChannels := 2, readPosition := 0, loopRange := none }

/-- The clip of the specification's scenarios: edit range `[1 s, 3 s)`, offset
`0`, speed `1`, output rate 48000 Hz, unit gain, two channels whose last
emitted sample is `1`; the file's rate and the play head flags are arguments. -/
def exampleNode (fileSampleRate : ℚ) (contiguous : Bool) : WaveNode Unit :=
  { playHeadState :=
      { playHead := { isUserDragging := false }
        isContiguousWithPreviousBlock := contiguous
        isFirstBlockOfLoop := false }
    editPosition := ⟨1, 3⟩
    loopSection := ⟨0, 0⟩
    offset := 0
    originalSpeedRatio := 1
    isOfflineRender := false
    audioFile := { isNull := false, getNumChannels := 2 }
    clipLevel := { getLeftAndRightGains := (1, 1), getGainIncludingMute := 1 }
    channelsToUse := { size := 2 }
    outputSampleRate := 48000
    editPositionInSamples := ⟨48000, 144000⟩
    audioFileSampleRate := fileSampleRate
    reader := some (exampleReader fileSampleRate)
    channelState := [{ resampler := (), lastSample := 1 }, { resampler := (), lastSample := 1 }] }

/-- A destination block of two channels and `numSamples` samples all equal to `v`. -/
def exampleBlock (numSamples : Nat) (v : ℚ) : ProcessContext :=
  { audio := { numChannels := 2, numSamples := numSamples, data := fun _ _ => v } }

/-! ## Lemmas on the conversions -/

/-- The cast of a non-negative value is its floor. -/
theorem toInt64_of_nonneg {x : ℚ} (h : 0 ≤ x) : toInt64 x = ⌊x⌋ := by
  simp [toInt64, h]

/-- The cast of a negative value is its ceiling. -/
theorem toInt64_of_neg {x : ℚ} (h : x < 0) : toInt64 x = ⌈x⌉ := by
  simp [toInt64, not_le.mpr h]

/-- Truncation toward zero is monotone. -/
theorem toInt64_mono : Monotone toInt64 := by
  intro x y hxy
  unfold toInt64
  split_ifs with hx hy hy
  · exact Int.floor_mono hxy
  · exact absurd (le_trans hx hxy) hy
  · have h1 : ⌈x⌉ ≤ 0 := Int.ceil_le.mpr (by push_cast; exact le_of_lt (not_le.mp hx))
    exact le_trans h1 (Int.floor_nonneg.mpr hy)
  · exact Int.ceil_mono hxy

/-! ## Lemmas on the block rendering -/

/-- After `n` iterations of the crossfade loop the samples below `n` are faded and
the others are as before. -/
theorem fadeLoop_apply (fadeLength : Nat) (lastSample : ℚ) (n : Nat) (dest : Nat → ℚ) (i : Nat) :
    fadeLoop fadeLength lastSample n dest i
      = if i < n then
          ((i : ℚ) / (fadeLength : ℚ)) * dest i + lastSample * (1 - (i : ℚ) / (fadeLength : ℚ))
        else dest i := by
  induction n with
  | zero => simp [fadeLoop]
  | succ n ih =>
    simp only [fadeLoop]
    by_cases h : i = n
    · subst h
      simp [ih]
    · rw [Function.update_noteq h, ih]
      have hlt : i < n + 1 ↔ i < n := by omega
      simp [hlt]

/-- The first `n` iterations of the channel loop leave the channels from `n` on,
and their states, as they were. -/
theorem channelLoop_ge (ext : Externals R) (ratio : ℚ) (fileData : Nat → Nat → ℚ)
    (numSamples : Nat) (g : ℚ × ℚ) (fadeLength : Nat) (n : Nat)
    (s : List (PerChannelState R) × (Nat → Nat → ℚ)) (c : Nat) (h : n ≤ c) :
    (channelLoop ext ratio fileData numSamples g fadeLength n s).1[c]? = s.1[c]?
      ∧ (channelLoop ext ratio fileData numSamples g fadeLength n s).2 c = s.2 c := by
  induction n with
  | zero => simp [channelLoop]
  | succ n ih =>
    have hne : c ≠ n := by omega
    have ih1 := ih (by omega)
    simp only [channelLoop]
    split
    · simp only [Function.update_noteq hne]
      refine ⟨?_, ih1.2⟩
      rw [List.getElem?_set_ne (Ne.symm hne)]
      exact ih1.1
    · simp only [Function.update_noteq hne]
      exact ih1

/-- After `n` iterations of the channel loop a channel below `n` that has a state
holds the outcome of `processChannel` on its data and state on entry. -/
theorem channelLoop_lt (ext : Externals R) (ratio : ℚ) (fileData : Nat → Nat → ℚ)
    (numSamples : Nat) (g : ℚ × ℚ) (fadeLength : Nat) (n : Nat)
    (s : List (PerChannelState R) × (Nat → Nat → ℚ)) (c : Nat) (h : c < n)
    (state : PerChannelState R) (hstate : s.1[c]? = some state) :
    (channelLoop ext ratio fileData numSamples g fadeLength n s).1[c]?
        = some (processChannel ext ratio (fileData c) (s.2 c) numSamples
            (if c % 2 = 0 then g.1 else g.2) fadeLength state).1
      ∧ (channelLoop ext ratio fileData numSamples g fadeLength n s).2 c
        = (processChannel ext ratio (fileData c) (s.2 c) numSamples
            (if c % 2 = 0 then g.1 else g.2) fadeLength state).2 := by
  induction n with
  | zero => omega
  | succ n ih =>
    by_cases hc : c = n
    · subst hc
      have hge := channelLoop_ge ext ratio fileData numSamples g fadeLength c s c (le_refl c)
      simp only [channelLoop]
      rw [hge.1, hstate]
      simp only [Function.update_same, hge.2]
      refine ⟨?_, trivial⟩
      rw [List.getElem?_set_self', hge.1, hstate]
      rfl
    · have ih1 := ih (by omega)
      simp only [channelLoop]
      split
      · simp only [Function.update_noteq hc]
        refine ⟨?_, ih1.2⟩
        rw [List.getElem?_set_ne (Ne.symm hc)]
        exact ih1.1
      · simp only [Function.update_noteq hc]
        exact ih1


/-- The sample rate guard changes neither the edit range in samples, the play
head state, the channel states, the clip level nor whether a reader is there. -/
theorem probeFileSampleRate_fields (ext : Externals R) (node : WaveNode R) :
    (node.probeFileSampleRate ext).2.editPositionInSamples = node.editPositionInSamples
      ∧ (node.probeFileSampleRate ext).2.playHeadState = node.playHeadState
      ∧ (node.probeFileSampleRate ext).2.channelState = node.channelState
      ∧ (node.probeFileSampleRate ext).2.clipLevel = node.clipLevel
      ∧ (node.probeFileSampleRate ext).2.reader.isSome = node.reader.isSome := by
  unfold WaveNode.probeFileSampleRate WaveNode.updateFileSampleRate
  rcases hr : node.reader with _ | reader
  · split_ifs <;> simp [hr]
  · simp only []
    split_ifs <;> simp [hr]

/-- The path of `processSection` through the guard `ratio <= 0`: the destination
buffer is returned as it was. -/
theorem processSection_of_ratio_nonpos (ext : Externals R) (node node1 : WaveNode R)
    (pc : ProcessContext) (timelineRange : Range Int) (reader : Reader)
    (hin : ¬ node.sectionIsOutside timelineRange)
    (hprobe : node.probeFileSampleRate ext = (true, node1))
    (hreader : node1.reader = some reader)
    (hratio : node1.ratio timelineRange pc.audio.numSamples ≤ 0) :
    (node.processSection ext pc timelineRange).2 = pc.audio := by
  simp [WaveNode.processSection, hin, hprobe, hreader, hratio]

/-- The path of `processSection` through the channel loop: the destination is the
outcome of the loop, cleared outside the edit range. -/
theorem processSection_of_ratio_pos (ext : Externals R) (node node1 : WaveNode R)
    (pc : ProcessContext) (timelineRange : Range Int) (reader : Reader)
    (hin : ¬ node.sectionIsOutside timelineRange)
    (hprobe : node.probeFileSampleRate ext = (true, node1))
    (hreader : node1.reader = some reader)
    (hratio : 0 < node1.ratio timelineRange pc.audio.numSamples) :
    (node.processSection ext pc timelineRange).2
      = clearOutsideEditRange node1.editPositionInSamples timelineRange
          { numChannels := pc.audio.numChannels
            numSamples := pc.audio.numSamples
            data := (channelLoop ext (node1.ratio timelineRange pc.audio.numSamples)
              (fileDataAfterRead (node1.readBlock ext reader timelineRange pc.audio.numChannels))
              pc.audio.numSamples
              (gains node1.clipLevel pc.audio.numChannels
                node1.playHeadState.playHead.isUserDragging)
              (lastSampleFadeLength
                (node1.readBlock ext reader timelineRange pc.audio.numChannels).1
                node1.playHeadState pc.audio.numSamples)
              pc.audio.numChannels (node1.channelState, pc.audio.data)).2 } := by
  simp [WaveNode.processSection, hin, hprobe, hreader, not_le.mpr hratio]

/-- The clearing step zeroes the samples of the block that lie before the edit
range's start or at/after its end in samples. -/
theorem clearOutsideEditRange_data_outside (editPositionInSamples timelineRange : Range Int)
    (b : AudioBlock)
    (hlen : timelineRange.getEnd = timelineRange.getStart + (b.numSamples : Int))
    (hend : timelineRange.getStart ≤ editPositionInSamples.getEnd)
    (c i : Nat) (hc : c < b.numChannels) (hi : i < b.numSamples)
    (hpos : timelineRange.getStart + (i : Int) < editPositionInSamples.getStart
      ∨ editPositionInSamples.getEnd ≤ timelineRange.getStart + (i : Int)) :
    (clearOutsideEditRange editPositionInSamples timelineRange b).data c i = 0 := by
  unfold clearOutsideEditRange
  by_cases h1 : 0 < editPositionInSamples.getStart - timelineRange.getStart <;>
  by_cases h2 : 0 < timelineRange.getEnd - editPositionInSamples.getEnd <;>
  simp only [h1, h2, if_true, if_false, AudioBlock.clearSubBlock, toSizeT] <;>
  (try split_ifs) <;> first | rfl | (exfalso; omega)

/-- The clearing step keeps the samples that lie inside the edit range in samples. -/
theorem clearOutsideEditRange_data_inside (editPositionInSamples timelineRange : Range Int)
    (b : AudioBlock)
    (hlen : timelineRange.getEnd = timelineRange.getStart + (b.numSamples : Int))
    (c i : Nat)
    (hpos : editPositionInSamples.getStart ≤ timelineRange.getStart + (i : Int)
      ∧ timelineRange.getStart + (i : Int) < editPositionInSamples.getEnd) :
    (clearOutsideEditRange editPositionInSamples timelineRange b).data c i = b.data c i := by
  unfold clearOutsideEditRange
  by_cases h1 : 0 < editPositionInSamples.getStart - timelineRange.getStart <;>
  by_cases h2 : 0 < timelineRange.getEnd - editPositionInSamples.getEnd <;>
  simp only [h1, h2, if_true, if_false, AudioBlock.clearSubBlock, toSizeT] <;>
  (try split_ifs) <;> first | rfl | (exfalso; omega)

/-- The samples a channel holds after `processChannel`: the crossfade of the
resampled value with the last sample below the fade length, the resampled
value from there on. -/
theorem processChannel_data (ext : Externals R) (ratio : ℚ) (src dest : Nat → ℚ)
    (numSamples : Nat) (gain : ℚ) (fadeLength : Nat) (state : PerChannelState R) (i : Nat) :
    (processChannel ext ratio src dest numSamples gain fadeLength state).2 i
      = if i < fadeLength then
          ((i : ℚ) / (fadeLength : ℚ))
              * (ext.processAdding state.resampler ratio src dest numSamples gain).2 i
            + state.lastSample * (1 - (i : ℚ) / (fadeLength : ℚ))
        else (ext.processAdding state.resampler ratio src dest numSamples gain).2 i := by
  unfold processChannel
  by_cases hK : 0 < fadeLength
  · simp only [hK, if_true, fadeLoop_apply]
  · have h0 : ¬ i < fadeLength := by omega
    simp only [hK, if_false, h0]

/-- Past the first guard and the sample rate guard the node has a reader. -/
theorem probe_reader_exists (ext : Externals R) (node node1 : WaveNode R)
    (timelineRange : Range Int) (hin : ¬ node.sectionIsOutside timelineRange)
    (hprobe : node.probeFileSampleRate ext = (true, node1)) :
    ∃ reader, node1.reader = some reader := by
  have hsome : node.reader.isSome = true := by
    unfold WaveNode.sectionIsOutside at hin
    rcases hr : node.reader with _ | r
    · exact absurd (Or.inl (by simp [hr])) hin
    · rfl
  have hf := (probeFileSampleRate_fields ext node).2.2.2.2
  rw [hprobe] at hf
  exact Option.isSome_iff_exists.mp (hf.trans hsome)

/-- On the path through the channel loop, a sample inside the edit range in
samples of a channel that has a state is what `processChannel` left there. -/
theorem processSection_data_inside (ext : Externals R) (node node1 : WaveNode R)
    (pc : ProcessContext) (timelineRange : Range Int) (reader : Reader)
    (state : PerChannelState R)
    (hin : ¬ node.sectionIsOutside timelineRange)
    (hprobe : node.probeFileSampleRate ext = (true, node1))
    (hreader : node1.reader = some reader)
    (hratio : 0 < node1.ratio timelineRange pc.audio.numSamples)
    (hlen : timelineRange.getEnd = timelineRange.getStart + (pc.audio.numSamples : Int))
    (c i : Nat) (hc : c < pc.audio.numChannels) (hstate : node.channelState[c]? = some state)
    (hpos : node.editPositionInSamples.getStart ≤ timelineRange.getStart + (i : Int)
      ∧ timelineRange.getStart + (i : Int) < node.editPositionInSamples.getEnd) :
    (node.processSection ext pc timelineRange).2.data c i
      = (processChannel ext (node1.ratio timelineRange pc.audio.numSamples)
          (fileDataAfterRead (node1.readBlock ext reader timelineRange pc.audio.numChannels) c)
          (pc.audio.data c) pc.audio.numSamples
          (if c % 2 = 0 then
            (gains node.clipLevel pc.audio.numChannels
              node.playHeadState.playHead.isUserDragging).1
          else
            (gains node.clipLevel pc.audio.numChannels
              node.playHeadState.playHead.isUserDragging).2)
          (lastSampleFadeLength
            (node1.readBlock ext reader timelineRange pc.audio.numChannels).1
            node.playHeadState pc.audio.numSamples)
          state).2 i := by
  have hf := probeFileSampleRate_fields ext node
  rw [hprobe] at hf
  obtain ⟨hf1, hf2, hf3, hf4, _⟩ := hf
  simp only at hf1 hf2 hf3 hf4
  rw [processSection_of_ratio_pos ext node node1 pc timelineRange reader hin hprobe hreader hratio,
    clearOutsideEditRange_data_inside]
  · simp only
    rw [(channelLoop_lt ext _ _ _ _ _ pc.audio.numChannels (node1.channelState, pc.audio.data)
      c hc state (by simpa [hf3] using hstate)).2, hf2, hf4]
  · exact hlen
  · rw [hf1]; exact hpos


/-- On the path through the channel loop, a sample of the block outside the edit
range in samples is zero afterwards. -/
theorem processSection_data_outside (ext : Externals R) (node node1 : WaveNode R)
    (pc : ProcessContext) (timelineRange : Range Int)
    (hin : ¬ node.sectionIsOutside timelineRange)
    (hprobe : node.probeFileSampleRate ext = (true, node1))
    (hratio : 0 < node1.ratio timelineRange pc.audio.numSamples)
    (hlen : timelineRange.getEnd = timelineRange.getStart + (pc.audio.numSamples : Int))
    (hend : timelineRange.getStart ≤ node.editPositionInSamples.getEnd)
    (c i : Nat) (hc : c < pc.audio.numChannels) (hi : i < pc.audio.numSamples)
    (hpos : timelineRange.getStart + (i : Int) < node.editPositionInSamples.getStart
      ∨ node.editPositionInSamples.getEnd ≤ timelineRange.getStart + (i : Int)) :
    (node.processSection ext pc timelineRange).2.data c i = 0 := by
  obtain ⟨reader, hreader⟩ := probe_reader_exists ext node node1 timelineRange hin hprobe
  have hf := (probeFileSampleRate_fields ext node).1
  rw [hprobe] at hf
  simp only at hf
  rw [processSection_of_ratio_pos ext node node1 pc timelineRange reader hin hprobe hreader hratio,
    clearOutsideEditRange_data_outside]
  · exact hlen
  · rw [hf]; exact hend
  · exact hc
  · exact hi
  · rw [hf]; exact hpos

/-! ## Facts about the example clip -/

/-- The example clip with a known file rate passes the sample rate guard unchanged. -/
theorem exampleNode_probe (fileSampleRate : ℚ) (contiguous readOk : Bool)
    (h : fileSampleRate ≠ 0) :
    (exampleNode fileSampleRate contiguous).probeFileSampleRate (exampleExternals readOk)
      = (true, exampleNode fileSampleRate contiguous) := by
  simp [WaveNode.probeFileSampleRate, exampleNode, h]

/-- The stand-in read succeeds or fails as asked. -/
theorem exampleNode_readBlock_flag (fileSampleRate : ℚ) (contiguous readOk : Bool)
    (reader : Reader) (timelineRange : Range Int) (numChannels : Nat) :
    ((exampleNode fileSampleRate contiguous).readBlock (exampleExternals readOk) reader
      timelineRange numChannels).1 = readOk := rfl

/-- File rate 8000 Hz: the block `[47998, 48002)` maps to no file sample. -/
theorem exampleNode_numFileSamples_start_8000 :
    (exampleNode 8000 true).numFileSamples ⟨47998, 48002⟩ = 0 := by
  norm_num [WaveNode.numFileSamples, WaveNode.editTimeToFileSample, sampleRangeToTime,
    sampleToTime, exampleNode, toInt64, toInt32]

/-- File rate 8000 Hz: the block `[48000, 48002)` maps to no file sample. -/
theorem exampleNode_numFileSamples_short_8000 :
    (exampleNode 8000 true).numFileSamples ⟨48000, 48002⟩ = 0 := by
  norm_num [WaveNode.numFileSamples, WaveNode.editTimeToFileSample, sampleRangeToTime,
    sampleToTime, exampleNode, toInt64, toInt32]

/-- File rate 48000 Hz: the block `[47998, 48002)` maps to three file samples. -/
theorem exampleNode_numFileSamples_start_48000 :
    (exampleNode 48000 true).numFileSamples ⟨47998, 48002⟩ = 3 := by
  have hc : ⌈(-(3 / 2) : ℚ)⌉ = -1 := by
    rw [Int.ceil_eq_iff]; norm_num
  norm_num [WaveNode.numFileSamples, WaveNode.editTimeToFileSample, sampleRangeToTime,
    sampleToTime, exampleNode, toInt64, toInt32, hc]

/-- File rate 48000 Hz: the block `[48000, 48004)` maps to four file samples. -/
theorem exampleNode_numFileSamples_inside_48000 :
    (exampleNode 48000 true).numFileSamples ⟨48000, 48004⟩ = 4 := by
  norm_num [WaveNode.numFileSamples, WaveNode.editTimeToFileSample, sampleRangeToTime,
    sampleToTime, exampleNode, toInt64, toInt32]

/-- A block that starts before sample 144000 and ends after sample 48000 passes
the first guard on the example clip. -/
theorem exampleNode_not_outside (fileSampleRate : ℚ) (a b : Int)
    (ha : a < 144000) (hb : 48000 < b) :
    ¬ (exampleNode fileSampleRate true).sectionIsOutside ⟨a, b⟩ := by
  have ha1 : (a : ℚ) < 144000 := by exact_mod_cast ha
  have hb1 : (48000 : ℚ) < (b : ℚ) := by exact_mod_cast hb
  simp only [WaveNode.sectionIsOutside, sampleRangeToTime, sampleToTime, exampleNode,
    Option.isNone_some, Bool.false_eq_true, false_or, not_or, not_le, ge_iff_le]
  constructor
  · rw [lt_div_iff₀ (by norm_num)]; linarith
  · rw [div_lt_iff₀ (by norm_num)]; linarith


/-! ## Blocks outside the edit range (C1) -/

/-- C1. A block whose edit-time range ends at or before the start of the
edit range, or starts at or after its end, is returned untouched by
`processSection`: the destination buffer (every sample of every channel) and
the node (every per-channel state with its `lastSample`) are exactly the ones
passed in. -/
theorem processSection_outside_edit_range (ext : Externals R) (node : WaveNode R)
    (pc : ProcessContext) (timelineRange : Range Int)
    (h : (sampleRangeToTime timelineRange node.outputSampleRate).getEnd
            ≤ node.editPosition.getStart
        ∨ (sampleRangeToTime timelineRange node.outputSampleRate).getStart
            ≥ node.editPosition.getEnd) :
    node.processSection ext pc timelineRange = (node, pc.audio) := by
  have hout : node.sectionIsOutside timelineRange := Or.inr h
  simp [WaveNode.processSection, hout]

/-- The scenario of C1: edit range `[1 s, 3 s)`, output rate 48000 Hz, block
`[0, 512)`. -/
theorem processSection_outside_edit_range_witness :
    (exampleNode 48000 true).processSection (exampleExternals true) (exampleBlock 512 0) ⟨0, 512⟩
      = (exampleNode 48000 true, (exampleBlock 512 0).audio) :=
  processSection_outside_edit_range (exampleExternals true) (exampleNode 48000 true)
    (exampleBlock 512 0) ⟨0, 512⟩
    (Or.inl (by norm_num [sampleRangeToTime, sampleToTime, exampleNode]))

/-! ## Samples outside the edit range (C2) -/

/-- C2 as the claim states it fails.  The example clip with a file rate of 8000
Hz and the block `[47998, 48002)`: a reader is present and the block overlaps
the edit range `[1 s, 3 s)`, but both ends of the block map to file sample `0`,
so the file range has length zero and `processSection` returns before the
clearing step.  Sample `0`, at timeline position 47998 before the edit start
48000, keeps the value `7` it held on entry. -/
theorem processSection_zero_length_counterexample :
    ¬ (exampleNode 8000 true).sectionIsOutside ⟨47998, 48002⟩
      ∧ (47998 : Int) + ((0 : Nat) : Int) < (exampleNode 8000 true).editPositionInSamples.getStart
      ∧ (exampleNode 8000 true).numFileSamples ⟨47998, 48002⟩ = 0
      ∧ ((exampleNode 8000 true).processSection (exampleExternals true) (exampleBlock 4 7)
          ⟨47998, 48002⟩).2.data 0 0 = 7 := by
  have hin := exampleNode_not_outside 8000 47998 48002 (by norm_num) (by norm_num)
  refine ⟨hin, by norm_num [exampleNode], exampleNode_numFileSamples_start_8000, ?_⟩
  rw [processSection_of_ratio_nonpos (exampleExternals true) (exampleNode 8000 true)
    (exampleNode 8000 true) (exampleBlock 4 7) ⟨47998, 48002⟩ (exampleReader 8000) hin
    (exampleNode_probe 8000 true true (by norm_num)) rfl
    (by simp [WaveNode.ratio, exampleNode_numFileSamples_start_8000])]
  rfl

/-- C2, amended.  Take a block that overlaps the edit range with a reader
present, for which the file sample rate is known or is obtained (the rate
guard lets processing go on, leaving the node `node1`) and which maps to a file
range of positive length (`ratio > 0`).  The block's timeline range is as long
as the destination buffer, and it does not start after the edit range's end in
samples.  Then every destination sample, in every channel, whose timeline
position is before the edit range's start in samples or at/after its end in
samples is zero when `processSection` returns, whatever the destination held
on entry. -/
theorem processSection_outside_samples_zero (ext : Externals R) (node node1 : WaveNode R)
    (pc : ProcessContext) (timelineRange : Range Int)
    (hin : ¬ node.sectionIsOutside timelineRange)
    (hprobe : node.probeFileSampleRate ext = (true, node1))
    (hratio : 0 < node1.ratio timelineRange pc.audio.numSamples)
    (hlen : timelineRange.getEnd = timelineRange.getStart + (pc.audio.numSamples : Int))
    (hend : timelineRange.getStart ≤ node.editPositionInSamples.getEnd)
    (c i : Nat) (hc : c < pc.audio.numChannels) (hi : i < pc.audio.numSamples)
    (hpos : timelineRange.getStart + (i : Int) < node.editPositionInSamples.getStart
      ∨ node.editPositionInSamples.getEnd ≤ timelineRange.getStart + (i : Int)) :
    (node.processSection ext pc timelineRange).2.data c i = 0 :=
  processSection_data_outside ext node node1 pc timelineRange hin hprobe hratio hlen hend c i hc hi
    hpos

/-- C2, amended, on the example clip with a file rate of 48000 Hz: in the block
`[47998, 48002)`, which maps to three file samples, sample `0` of channel `0`
(timeline position 47998, before the edit start 48000) is zero afterwards,
although it held `7` on entry. -/
theorem processSection_outside_samples_zero_witness :
    ((exampleNode 48000 true).processSection (exampleExternals true) (exampleBlock 4 7)
        ⟨47998, 48002⟩).2.data 0 0 = 0 :=
  processSection_outside_samples_zero (exampleExternals true) (exampleNode 48000 true)
    (exampleNode 48000 true) (exampleBlock 4 7) ⟨47998, 48002⟩
    (exampleNode_not_outside 48000 47998 48002 (by norm_num) (by norm_num))
    (exampleNode_probe 48000 true true (by norm_num))
    (by norm_num [WaveNode.ratio, exampleNode_numFileSamples_start_48000, exampleBlock])
    (by norm_num [exampleBlock])
    (by norm_num [exampleNode])
    0 0 (by norm_num [exampleBlock]) (by norm_num [exampleBlock])
    (Or.inl (by norm_num [exampleNode]))

/-! ## Time mapping (C3, C4, C5) -/

/-- C4. For positive speed ratio, file sample rate and output sample rate,
`editPositionToFileSample` is monotonically non-decreasing in the timeline
sample. -/
theorem editPositionToFileSample_monotone (node : WaveNode R)
    (hspeed : 0 < node.originalSpeedRatio) (hfile : 0 < node.audioFileSampleRate)
    (hout : 0 < node.outputSampleRate) (a b : Int) (hab : a ≤ b) :
    node.editPositionToFileSample a ≤ node.editPositionToFileSample b := by
  unfold WaveNode.editPositionToFileSample WaveNode.editTimeToFileSample
  apply toInt64_mono
  have hq : (a : ℚ) ≤ (b : ℚ) := by exact_mod_cast hab
  have hdiv : (a : ℚ) / node.outputSampleRate ≤ (b : ℚ) / node.outputSampleRate :=
    div_le_div_of_nonneg_right hq (le_of_lt hout)
  have hk : 0 ≤ node.originalSpeedRatio * node.audioFileSampleRate :=
    le_of_lt (mul_pos hspeed hfile)
  have hmul : ((a : ℚ) / node.outputSampleRate - (node.editPosition.getStart - node.offset))
        * (node.originalSpeedRatio * node.audioFileSampleRate)
      ≤ ((b : ℚ) / node.outputSampleRate - (node.editPosition.getStart - node.offset))
        * (node.originalSpeedRatio * node.audioFileSampleRate) :=
    mul_le_mul_of_nonneg_right (by linarith) hk
  linarith

/-- C4 on the example clip, timeline samples 48000 and 48512. -/
theorem editPositionToFileSample_monotone_witness :
    (exampleNode 48000 true).editPositionToFileSample 48000
      ≤ (exampleNode 48000 true).editPositionToFileSample 48512 :=
  editPositionToFileSample_monotone (exampleNode 48000 true)
    (by norm_num [exampleNode]) (by norm_num [exampleNode]) (by norm_num [exampleNode])
    48000 48512 (by norm_num)

/-- C5 as the claim states it fails, in two ways.  With output rate 48000 and
file rate 8000 (speed `1`, edit start `1`, offset `0`) the timeline sample
48003 maps to file sample `1`, which maps back to 48006: three samples off.
With equal rates 48000 and offset `119999/240000` the timeline sample 23999
lies `1.2` file samples before the file's first sample, maps to file sample
`0`, and that maps back to `23999 + 6/5`. -/
theorem editPosition_round_trip_counterexample :
    (exampleNode 8000 true).fileSampleToEditPosition
        ((exampleNode 8000 true).editPositionToFileSample 48003) = 48006
      ∧ ¬ |(exampleNode 8000 true).fileSampleToEditPosition
            ((exampleNode 8000 true).editPositionToFileSample 48003) - ((48003 : Int) : ℚ)| ≤ 1
      ∧ ¬ |({ exampleNode 48000 true with offset := 119999 / 240000 }
              : WaveNode Unit).fileSampleToEditPosition
            (({ exampleNode 48000 true with offset := 119999 / 240000 }
              : WaveNode Unit).editPositionToFileSample 23999) - ((23999 : Int) : ℚ)| ≤ 1 := by
  have h1 : (exampleNode 8000 true).editPositionToFileSample 48003 = 1 := by
    simp only [WaveNode.editPositionToFileSample, WaveNode.editTimeToFileSample, exampleNode]
    rw [toInt64_of_nonneg (by norm_num), Int.floor_eq_iff]
    norm_num
  have h2 : ({ exampleNode 48000 true with offset := 119999 / 240000 }
      : WaveNode Unit).editPositionToFileSample 23999 = 0 := by
    simp only [WaveNode.editPositionToFileSample, WaveNode.editTimeToFileSample, exampleNode]
    rw [toInt64_of_neg (by norm_num), Int.ceil_eq_iff]
    norm_num
  refine ⟨?_, ?_, ?_⟩
  · rw [h1]; norm_num [WaveNode.fileSampleToEditPosition, exampleNode]
  · rw [h1]; norm_num [WaveNode.fileSampleToEditPosition, exampleNode, abs_le]
  · rw [h2]; norm_num [WaveNode.fileSampleToEditPosition, exampleNode, abs_le]

/-- C5, amended.  For positive speed ratio, file rate and output rate, when the
output rate is at most twice `speedRatio * fileSampleRate` and the timeline
sample `s` maps to `x ≥ -1/2` (it does not lie more than half a file sample
before the file's first sample), mapping `editPositionToFileSample s` back
through the inverse formula recovers `s` within one sample. -/
theorem editPosition_round_trip (node : WaveNode R)
    (hspeed : 0 < node.originalSpeedRatio) (hfile : 0 < node.audioFileSampleRate)
    (hout : 0 < node.outputSampleRate) (s : Int)
    (hrate : node.outputSampleRate ≤ 2 * (node.originalSpeedRatio * node.audioFileSampleRate))
    (hx : -1 / 2 ≤ ((s : ℚ) / node.outputSampleRate - (node.editPosition.getStart - node.offset))
                    * node.originalSpeedRatio * node.audioFileSampleRate) :
    |node.fileSampleToEditPosition (node.editPositionToFileSample s) - (s : ℚ)| ≤ 1 := by
  have hk : 0 < node.originalSpeedRatio * node.audioFileSampleRate := mul_pos hspeed hfile
  have hf : node.editPositionToFileSample s
      = ⌊((s : ℚ) / node.outputSampleRate - (node.editPosition.getStart - node.offset))
            * node.originalSpeedRatio * node.audioFileSampleRate + 1 / 2⌋ :=
    toInt64_of_nonneg (by linarith)
  rw [hf]
  set x : ℚ := ((s : ℚ) / node.outputSampleRate - (node.editPosition.getStart - node.offset))
    * node.originalSpeedRatio * node.audioFileSampleRate with hxdef
  have hlo : (⌊x + 1 / 2⌋ : ℚ) ≤ x + 1 / 2 := Int.floor_le _
  have hhi : x + 1 / 2 < (⌊x + 1 / 2⌋ : ℚ) + 1 := Int.lt_floor_add_one _
  have hq : 0 < node.outputSampleRate
      / (node.originalSpeedRatio * node.audioFileSampleRate) := div_pos hout hk
  have hq2 : node.outputSampleRate
      / (node.originalSpeedRatio * node.audioFileSampleRate) ≤ 2 := by
    rw [div_le_iff₀ hk]; exact hrate
  have key : node.fileSampleToEditPosition ⌊x + 1 / 2⌋ - (s : ℚ)
      = ((⌊x + 1 / 2⌋ : ℚ) - x)
          * (node.outputSampleRate / (node.originalSpeedRatio * node.audioFileSampleRate)) := by
    have hs0 : node.originalSpeedRatio ≠ 0 := ne_of_gt hspeed
    have hf0 : node.audioFileSampleRate ≠ 0 := ne_of_gt hfile
    have ho0 : node.outputSampleRate ≠ 0 := ne_of_gt hout
    rw [hxdef]
    unfold WaveNode.fileSampleToEditPosition
    field_simp
    ring
  rw [key, abs_le]
  constructor <;> nlinarith

/-- C5, amended, on the example clip with equal rates at timeline sample 48100. -/
theorem editPosition_round_trip_witness :
    |(exampleNode 48000 true).fileSampleToEditPosition
        ((exampleNode 48000 true).editPositionToFileSample 48100) - ((48100 : Int) : ℚ)| ≤ 1 :=
  editPosition_round_trip (exampleNode 48000 true)
    (by norm_num [exampleNode]) (by norm_num [exampleNode]) (by norm_num [exampleNode]) 48100
    (by norm_num [exampleNode]) (by norm_num [exampleNode])

/-! ## Contiguous blocks (C6) -/

/-- C6 as the claim states it fails.  The example clip, contiguous with the
previous block, on the block `[48000, 48004)` inside the edit range, with a
read that fails: the fade length is `4`, not `0`, and sample `0` of channel `0`
is the remembered last sample `1`, while the value after the additive
resampling step is `7`. -/
theorem processSection_contiguous_counterexample :
    (exampleNode 48000 true).playHeadState.isContiguousWithPreviousBlock = true
      ∧ lastSampleFadeLength
          ((exampleNode 48000 true).readBlock (exampleExternals false) (exampleReader 48000)
            ⟨48000, 48004⟩ 2).1
          (exampleNode 48000 true).playHeadState 4 = 4
      ∧ ((exampleNode 48000 true).processSection (exampleExternals false) (exampleBlock 4 7)
          ⟨48000, 48004⟩).2.data 0 0 = 1
      ∧ ((exampleExternals false).processAdding () 1 (fun _ => 0) (fun _ => 7) 4 1).2 0 = 7 := by
  have hin := exampleNode_not_outside 48000 48000 48004 (by norm_num) (by norm_num)
  refine ⟨rfl, by simp [exampleNode_readBlock_flag, lastSampleFadeLength], ?_,
    by norm_num [exampleExternals]⟩
  rw [processSection_data_inside (exampleExternals false) (exampleNode 48000 true)
    (exampleNode 48000 true) (exampleBlock 4 7) ⟨48000, 48004⟩ (exampleReader 48000)
    { resampler := (), lastSample := 1 } hin
    (exampleNode_probe 48000 true false (by norm_num)) rfl
    (by norm_num [WaveNode.ratio, exampleNode_numFileSamples_inside_48000, exampleBlock])
    (by norm_num [exampleBlock]) 0 0 (by norm_num [exampleBlock]) rfl
    (by norm_num [exampleNode]),
    processChannel_data]
  norm_num [exampleNode_readBlock_flag, lastSampleFadeLength, exampleBlock]

/-- C6, amended.  Take a block that overlaps the edit range with a reader
present, whose rate guard lets processing go on, whose read succeeds, that maps
to a file range of positive length and that the play head reports contiguous
with the previous block.  Then the fade length is `0`, and for every channel
that has a per-channel state, every destination sample whose timeline position
lies inside the edit range in samples equals its value after the additive
resampling step (the outcome of `processAdding` on the channel as it was on
entry), whatever `lastSample` is.  Samples outside the edit range in samples
are cleared afterwards. -/
theorem processSection_contiguous_no_fade (ext : Externals R) (node node1 : WaveNode R)
    (pc : ProcessContext) (timelineRange : Range Int) (reader : Reader)
    (state : PerChannelState R)
    (hin : ¬ node.sectionIsOutside timelineRange)
    (hprobe : node.probeFileSampleRate ext = (true, node1))
    (hreader : node1.reader = some reader)
    (hread : (node1.readBlock ext reader timelineRange pc.audio.numChannels).1 = true)
    (hcontiguous : node.playHeadState.isContiguousWithPreviousBlock = true)
    (hratio : 0 < node1.ratio timelineRange pc.audio.numSamples)
    (hlen : timelineRange.getEnd = timelineRange.getStart + (pc.audio.numSamples : Int))
    (c i : Nat) (hc : c < pc.audio.numChannels) (hstate : node.channelState[c]? = some state)
    (hpos : node.editPositionInSamples.getStart ≤ timelineRange.getStart + (i : Int)
      ∧ timelineRange.getStart + (i : Int) < node.editPositionInSamples.getEnd) :
    lastSampleFadeLength (node1.readBlock ext reader timelineRange pc.audio.numChannels).1
        node.playHeadState pc.audio.numSamples = 0
      ∧ (node.processSection ext pc timelineRange).2.data c i
        = (ext.processAdding state.resampler (node1.ratio timelineRange pc.audio.numSamples)
            ((node1.readBlock ext reader timelineRange pc.audio.numChannels).2.1 c)
            (pc.audio.data c) pc.audio.numSamples
            (if c % 2 = 0 then
              (gains node.clipLevel pc.audio.numChannels
                node.playHeadState.playHead.isUserDragging).1
            else
              (gains node.clipLevel pc.audio.numChannels
                node.playHeadState.playHead.isUserDragging).2)).2 i := by
  have hK : lastSampleFadeLength
      (node1.readBlock ext reader timelineRange pc.audio.numChannels).1
      node.playHeadState pc.audio.numSamples = 0 := by
    simp [lastSampleFadeLength, hread, hcontiguous]
  refine ⟨hK, ?_⟩
  rw [processSection_data_inside ext node node1 pc timelineRange reader state hin hprobe hreader
    hratio hlen c i hc hstate hpos, processChannel_data, hK]
  simp [fileDataAfterRead, hread]

/-- C6, amended, on the example clip: the contiguous block `[48000, 48004)` with
a successful read gets no fade, and sample `0` of channel `0` is the value the
resampling step left there. -/
theorem processSection_contiguous_no_fade_witness :
    lastSampleFadeLength
        ((exampleNode 48000 true).readBlock (exampleExternals true) (exampleReader 48000)
          ⟨48000, 48004⟩ (exampleBlock 4 7).audio.numChannels).1
        (exampleNode 48000 true).playHeadState (exampleBlock 4 7).audio.numSamples = 0
      ∧ ((exampleNode 48000 true).processSection (exampleExternals true) (exampleBlock 4 7)
          ⟨48000, 48004⟩).2.data 0 0
        = ((exampleExternals true).processAdding ()
            ((exampleNode 48000 true).ratio ⟨48000, 48004⟩ (exampleBlock 4 7).audio.numSamples)
            (((exampleNode 48000 true).readBlock (exampleExternals true) (exampleReader 48000)
              ⟨48000, 48004⟩ (exampleBlock 4 7).audio.numChannels).2.1 0)
            ((exampleBlock 4 7).audio.data 0) (exampleBlock 4 7).audio.numSamples
            (if 0 % 2 = 0 then
              (gains (exampleNode 48000 true).clipLevel (exampleBlock 4 7).audio.numChannels
                (exampleNode 48000 true).playHeadState.playHead.isUserDragging).1
            else
              (gains (exampleNode 48000 true).clipLevel (exampleBlock 4 7).audio.numChannels
                (exampleNode 48000 true).playHeadState.playHead.isUserDragging).2)).2 0 :=
  processSection_contiguous_no_fade (exampleExternals true) (exampleNode 48000 true)
    (exampleNode 48000 true) (exampleBlock 4 7) ⟨48000, 48004⟩ (exampleReader 48000)
    { resampler := (), lastSample := 1 }
    (exampleNode_not_outside 48000 48000 48004 (by norm_num) (by norm_num))
    (exampleNode_probe 48000 true true (by norm_num)) rfl rfl rfl
    (by norm_num [WaveNode.ratio, exampleNode_numFileSamples_inside_48000, exampleBlock])
    (by norm_num [exampleBlock]) 0 0 (by norm_num [exampleBlock]) rfl
    (by norm_num [exampleNode])

/-! ## Read failure (C7) -/

/-- C7 as the claim states it fails, in two ways, both with a failing read on
the example clip, whose remembered last sample is `1`, so that the ramp would
start at `1`.  With a file rate of 8000 Hz the block `[48000, 48002)` maps to a
file range of length zero and is returned as it was: sample `0` is still `7`.
With a file rate of 48000 Hz the block `[47998, 48002)` is faded and then
cleared before the edit start: sample `0` is `0`. -/
theorem processSection_read_failure_counterexample :
    (¬ (exampleNode 8000 true).sectionIsOutside ⟨48000, 48002⟩
        ∧ ((exampleNode 8000 true).readBlock (exampleExternals false) (exampleReader 8000)
            ⟨48000, 48002⟩ 2).1 = false
        ∧ ((exampleNode 8000 true).processSection (exampleExternals false) (exampleBlock 2 7)
            ⟨48000, 48002⟩).2.data 0 0 = 7
        ∧ (((0 : Nat) : ℚ) / ((min 2 40 : Nat) : ℚ))
              * ((exampleExternals false).processAdding () 0 (fun _ => 0) (fun _ => 7) 2 1).2 0
            + (1 - ((0 : Nat) : ℚ) / ((min 2 40 : Nat) : ℚ)) * 1 = 1)
      ∧ (¬ (exampleNode 48000 true).sectionIsOutside ⟨47998, 48002⟩
        ∧ ((exampleNode 48000 true).readBlock (exampleExternals false) (exampleReader 48000)
            ⟨47998, 48002⟩ 2).1 = false
        ∧ ((exampleNode 48000 true).processSection (exampleExternals false) (exampleBlock 4 7)
            ⟨47998, 48002⟩).2.data 0 0 = 0
        ∧ (((0 : Nat) : ℚ) / ((min 4 40 : Nat) : ℚ))
              * ((exampleExternals false).processAdding () (3 / 4) (fun _ => 0)
                  (fun _ => 7) 4 1).2 0
            + (1 - ((0 : Nat) : ℚ) / ((min 4 40 : Nat) : ℚ)) * 1 = 1) := by
  have hin1 := exampleNode_not_outside 8000 48000 48002 (by norm_num) (by norm_num)
  have hin2 := exampleNode_not_outside 48000 47998 48002 (by norm_num) (by norm_num)
  refine ⟨⟨hin1, rfl, ?_, by norm_num⟩, ⟨hin2, rfl, ?_, by norm_num⟩⟩
  · rw [processSection_of_ratio_nonpos (exampleExternals false) (exampleNode 8000 true)
      (exampleNode 8000 true) (exampleBlock 2 7) ⟨48000, 48002⟩ (exampleReader 8000) hin1
      (exampleNode_probe 8000 true false (by norm_num)) rfl
      (by simp [WaveNode.ratio, exampleNode_numFileSamples_short_8000])]
    rfl
  · exact processSection_data_outside (exampleExternals false) (exampleNode 48000 true)
      (exampleNode 48000 true) (exampleBlock 4 7) ⟨47998, 48002⟩ hin2
      (exampleNode_probe 48000 true false (by norm_num))
      (by norm_num [WaveNode.ratio, exampleNode_numFileSamples_start_48000, exampleBlock])
      (by norm_num [exampleBlock]) (by norm_num [exampleNode])
      0 0 (by norm_num [exampleBlock]) (by norm_num [exampleBlock])
      (Or.inl (by norm_num [exampleNode]))

/-- C7, amended.  Take a block that overlaps the edit range with a reader
present, whose rate guard lets processing go on, whose read fails and that maps
to a file range of positive length.  Then, whatever the contiguity, loop and
drag flags are, the source data is all zeros, the fade length is
`K = min numSamples 40`, and for every channel that has a per-channel state
every destination sample `i < K` whose timeline position lies inside the edit
range in samples is `(i/K) * new i + (1 - i/K) * lastSample`, where `new` is the
outcome of the additive resampling of the zero source onto the channel as it
was on entry.  A block that maps to a file range of length zero is left as it
was, and samples outside the edit range in samples are cleared. -/
theorem processSection_read_failure_fade (ext : Externals R) (node node1 : WaveNode R)
    (pc : ProcessContext) (timelineRange : Range Int) (reader : Reader)
    (state : PerChannelState R)
    (hin : ¬ node.sectionIsOutside timelineRange)
    (hprobe : node.probeFileSampleRate ext = (true, node1))
    (hreader : node1.reader = some reader)
    (hread : (node1.readBlock ext reader timelineRange pc.audio.numChannels).1 = false)
    (hratio : 0 < node1.ratio timelineRange pc.audio.numSamples)
    (hlen : timelineRange.getEnd = timelineRange.getStart + (pc.audio.numSamples : Int))
    (c i : Nat) (hc : c < pc.audio.numChannels) (hstate : node.channelState[c]? = some state)
    (hi : i < min pc.audio.numSamples 40)
    (hpos : node.editPositionInSamples.getStart ≤ timelineRange.getStart + (i : Int)
      ∧ timelineRange.getStart + (i : Int) < node.editPositionInSamples.getEnd) :
    fileDataAfterRead (node1.readBlock ext reader timelineRange pc.audio.numChannels)
        = (fun _ _ => 0)
      ∧ lastSampleFadeLength (node1.readBlock ext reader timelineRange pc.audio.numChannels).1
          node.playHeadState pc.audio.numSamples = min pc.audio.numSamples 40
      ∧ (node.processSection ext pc timelineRange).2.data c i
        = ((i : ℚ) / ((min pc.audio.numSamples 40 : Nat) : ℚ))
            * (ext.processAdding state.resampler
                (node1.ratio timelineRange pc.audio.numSamples) (fun _ => 0)
                (pc.audio.data c) pc.audio.numSamples
                (if c % 2 = 0 then
                  (gains node.clipLevel pc.audio.numChannels
                    node.playHeadState.playHead.isUserDragging).1
                else
                  (gains node.clipLevel pc.audio.numChannels
                    node.playHeadState.playHead.isUserDragging).2)).2 i
          + (1 - (i : ℚ) / ((min pc.audio.numSamples 40 : Nat) : ℚ)) * state.lastSample := by
  have hzero : fileDataAfterRead
      (node1.readBlock ext reader timelineRange pc.audio.numChannels) = (fun _ _ => 0) := by
    simp [fileDataAfterRead, hread]
  have hK : lastSampleFadeLength
      (node1.readBlock ext reader timelineRange pc.audio.numChannels).1
      node.playHeadState pc.audio.numSamples = min pc.audio.numSamples 40 := by
    simp [lastSampleFadeLength, hread]
  refine ⟨hzero, hK, ?_⟩
  rw [processSection_data_inside ext node node1 pc timelineRange reader state hin hprobe hreader
    hratio hlen c i hc hstate hpos, processChannel_data, hK, if_pos hi, hzero]
  ring

/-- C7, amended, on the example clip: with a failing read on the block
`[48000, 48004)` the fade length is `4` and sample `1` of channel `0` is
`(1/4) * 7 + (1 - 1/4) * 1 = 5/2`. -/
theorem processSection_read_failure_fade_witness :
    ((exampleNode 48000 true).processSection (exampleExternals false) (exampleBlock 4 7)
        ⟨48000, 48004⟩).2.data 0 1 = 5 / 2 := by
  have h := (processSection_read_failure_fade (exampleExternals false) (exampleNode 48000 true)
    (exampleNode 48000 true) (exampleBlock 4 7) ⟨48000, 48004⟩ (exampleReader 48000)
    { resampler := (), lastSample := 1 }
    (exampleNode_not_outside 48000 48000 48004 (by norm_num) (by norm_num))
    (exampleNode_probe 48000 true false (by norm_num)) rfl rfl
    (by norm_num [WaveNode.ratio, exampleNode_numFileSamples_inside_48000, exampleBlock])
    (by norm_num [exampleBlock]) 0 1 (by norm_num [exampleBlock]) rfl
    (by norm_num [exampleBlock]) (by norm_num [exampleNode])).2.2
  rw [h]
  norm_num [exampleBlock, exampleExternals]

/-! ## Fade length after a successful read (C8) -/

/-- C8. After a successful read the fade length chosen by `processSection` is
`0` when the block is contiguous with the previous one or is the first block of
a loop (also when it is both first-of-loop and not contiguous); otherwise it is
`min numSamples 40` while the user is dragging and `min numSamples 10` when
not. -/
theorem lastSampleFadeLength_read_ok (playHeadState : PlayHeadState) (numSamples : Nat) :
    ((playHeadState.isContiguousWithPreviousBlock = true
        ∨ playHeadState.isFirstBlockOfLoop = true) →
      lastSampleFadeLength true playHeadState numSamples = 0)
    ∧ ((playHeadState.isContiguousWithPreviousBlock = false
        ∧ playHeadState.isFirstBlockOfLoop = false) →
      (playHeadState.playHead.isUserDragging = true →
        lastSampleFadeLength true playHeadState numSamples = min numSamples 40)
      ∧ (playHeadState.playHead.isUserDragging = false →
        lastSampleFadeLength true playHeadState numSamples = min numSamples 10)) := by
  refine ⟨?_, ?_⟩
  · rintro (h | h) <;> simp [lastSampleFadeLength, h]
  · rintro ⟨h1, h2⟩
    constructor <;> intro h3 <;> simp [lastSampleFadeLength, h1, h2, h3]

/-- C8 at concrete play head states with a block of 512 samples: a first block
of a loop that is not contiguous gets no fade, a plain jump gets 10 samples and
a jump while dragging gets 40. -/
theorem lastSampleFadeLength_read_ok_witness :
    lastSampleFadeLength true
        { playHead := { isUserDragging := true }
          isContiguousWithPreviousBlock := false
          isFirstBlockOfLoop := true } 512 = 0
      ∧ lastSampleFadeLength true
        { playHead := { isUserDragging := false }
          isContiguousWithPreviousBlock := false
          isFirstBlockOfLoop := false } 512 = min 512 10
      ∧ lastSampleFadeLength true
        { playHead := { isUserDragging := true }
          isContiguousWithPreviousBlock := false
          isFirstBlockOfLoop := false } 512 = min 512 40 :=
  ⟨(lastSampleFadeLength_read_ok _ 512).1 (Or.inr rfl),
   ((lastSampleFadeLength_read_ok _ 512).2 ⟨rfl, rfl⟩).2 rfl,
   ((lastSampleFadeLength_read_ok _ 512).2 ⟨rfl, rfl⟩).1 rfl⟩

/-! ## Node properties (C9) -/

/-- C9. With `r` the size of the requested channel set and `f` the file's
channel count, `getNodeProperties` reports `max 1 (min r f)` channels, audio and
no MIDI. -/
theorem getNodeProperties_spec (node : WaveNode R) :
    node.getNodeProperties.numberOfChannels
        = max 1 (min (node.channelsToUse.size : Int) node.audioFile.getNumChannels)
      ∧ node.getNodeProperties.hasAudio = true
      ∧ node.getNodeProperties.hasMidi = false := by
  refine ⟨?_, rfl, rfl⟩
  simp only [WaveNode.getNodeProperties, jlimit, max_def, min_def]
  split_ifs <;> omega

/-- The scenario of C9: two channels requested, a file of one channel. -/
theorem getNodeProperties_spec_witness :
    ({ exampleNode 48000 true with
        channelsToUse := { size := 2 }
        audioFile := { isNull := false, getNumChannels := 1 } }
      : WaveNode Unit).getNodeProperties.numberOfChannels = 1 := by
  rw [(getNodeProperties_spec _).1]
  decide

/-! ## Readiness (C10) -/

/-- The sample rate probe keeps the rates of a node non-negative. -/
theorem updateFileSampleRate_ratesNonNegative (ext : Externals R) (node : WaveNode R)
    (h : node.ratesNonNegative) : (node.updateFileSampleRate ext).2.ratesNonNegative := by
  obtain ⟨h0, hr⟩ := h
  unfold WaveNode.updateFileSampleRate
  rcases hreader : node.reader with _ | reader
  · exact ⟨h0, by simp [hreader]⟩
  · have hrate := hr reader hreader
    simp only []
    split_ifs
    · exact ⟨hrate, by simp [hreader, hrate]⟩
    · exact ⟨hrate, by simp [hrate]⟩
    · exact ⟨hrate, by simp [hreader, hrate]⟩

/-- When the readers that `createReader` gives report non-negative rates,
`prepareToPlay` leaves a node whose rates are non-negative. -/
theorem prepareToPlay_ratesNonNegative (ext : Externals R) (node : WaveNode R)
    (info : PlaybackInitialisationInfo) (created : Option Reader)
    (h0 : 0 ≤ node.audioFileSampleRate)
    (hc : ∀ r, created = some r → 0 ≤ r.getSampleRate) :
    (node.prepareToPlay ext info created).ratesNonNegative := by
  have hu := updateFileSampleRate_ratesNonNegative ext
    ({ node with
        reader := created
        outputSampleRate := info.sampleRate
        editPositionInSamples :=
          ⟨ext.timeToSample node.editPosition.getStart info.sampleRate,
           ext.timeToSample node.editPosition.getEnd info.sampleRate⟩ }) ⟨h0, hc⟩
  unfold WaveNode.prepareToPlay
  simp only []
  split <;> exact hu

/-- When the readers that `createReader` gives report non-negative rates,
`isReadyToProcess` keeps the rates of a node non-negative. -/
theorem isReadyToProcess_ratesNonNegative (ext : Externals R) (node : WaveNode R)
    (created : Option Reader) (h : node.ratesNonNegative)
    (hc : ∀ r, created = some r → 0 ≤ r.getSampleRate) :
    (node.isReadyToProcess ext created).2.ratesNonNegative := by
  unfold WaveNode.isReadyToProcess
  by_cases hnull : node.audioFile.isNull = true
  · simpa [hnull] using h
  · simp only [hnull, Bool.false_eq_true, if_false]
    rcases hr : node.reader with _ | reader
    · rcases hcr : created with _ | made
      · exact ⟨h.1, by simp [hr]⟩
      · have hn : ({ node with reader := some made } : WaveNode R).ratesNonNegative :=
          ⟨h.1, by
            intro r hrr
            exact hc r (by rw [hcr]; exact hrr)⟩
        have hu := updateFileSampleRate_ratesNonNegative ext _ hn
        simp only []
        split_ifs
        · exact hu
        · exact hu
        · exact hn
    · have hu := updateFileSampleRate_ratesNonNegative ext node h
      simp only [hr]
      split_ifs
      · exact hu
      · exact hu
      · exact h

/-- Outside the reader interface: if a reader reported the sample rate `-1`,
`prepareToPlay` would store `-1`, and `isReadyToProcess` would then return
`true` without probing again although no positive rate is known.  The
hypothesis of `isReadyToProcess_spec` cannot be dropped. -/
theorem isReadyToProcess_negative_rate :
    ((exampleNode 0 true).prepareToPlay (exampleExternals true) ⟨48000⟩
        (some (exampleReader (-1)))).audioFile.isNull = false
      ∧ (((exampleNode 0 true).prepareToPlay (exampleExternals true) ⟨48000⟩
          (some (exampleReader (-1)))).isReadyToProcess (exampleExternals true) none).1 = true
      ∧ ¬ (0 < (((exampleNode 0 true).prepareToPlay (exampleExternals true) ⟨48000⟩
          (some (exampleReader (-1)))).isReadyToProcess
            (exampleExternals true) none).2.audioFileSampleRate) := by
  norm_num [WaveNode.prepareToPlay, WaveNode.isReadyToProcess, WaveNode.updateFileSampleRate,
    exampleNode, exampleReader]

/-- C10.  Take a node whose stored file sample rate is not negative (it is `0`,
not known, or a rate a reader reported).  For a null audio file
`isReadyToProcess` returns `true` and leaves the node as it is, whatever a
reader creation would give: no reader is opened.  For a non-null file it
retries the creation: the reader afterwards is the one the node had or else
the one `createReader` gives, up to its loop range.  It probes the sample
rate: a stored rate of `0` is replaced by the rate that reader reports (and
stays `0` without a reader), a known rate is kept.  And it returns `false` if
and only if afterwards the reader is still absent or the stored file sample
rate is still not positive. -/
theorem isReadyToProcess_spec (ext : Externals R) (node : WaveNode R)
    (created : Option Reader) (hrate : 0 ≤ node.audioFileSampleRate) :
    (node.audioFile.isNull = true → node.isReadyToProcess ext created = (true, node))
    ∧ (node.audioFile.isNull = false →
        Option.map (fun r => (r.getSampleRate, r.getNumChannels, r.readPosition))
            (node.isReadyToProcess ext created).2.reader
          = Option.map (fun r => (r.getSampleRate, r.getNumChannels, r.readPosition))
              (node.reader.or created)
        ∧ (node.isReadyToProcess ext created).2.audioFileSampleRate
          = (if node.audioFileSampleRate = 0 then
              (Option.map Reader.getSampleRate (node.reader.or created)).getD 0
            else node.audioFileSampleRate)
        ∧ ((node.isReadyToProcess ext created).1 = false ↔
            ((node.isReadyToProcess ext created).2.reader = none
              ∨ ¬ 0 < (node.isReadyToProcess ext created).2.audioFileSampleRate))) := by
  constructor
  · intro h
    simp [WaveNode.isReadyToProcess, h]
  · intro h
    rcases hr : node.reader with _ | reader
    · rcases hc : created with _ | made
      · by_cases h0 : node.audioFileSampleRate = 0
        · simp [WaveNode.isReadyToProcess, h, hr, hc, h0]
        · simp [WaveNode.isReadyToProcess, h, hr, hc, h0]
      · by_cases h0 : node.audioFileSampleRate = 0
        · by_cases hpos : made.getSampleRate ≤ 0
          · simp [WaveNode.isReadyToProcess, WaveNode.updateFileSampleRate, h, hr, hc, h0, hpos]
          · by_cases hl : ext.isEmpty node.loopSection = true
            · simp [WaveNode.isReadyToProcess, WaveNode.updateFileSampleRate, h, hr, hc, h0,
                hpos, hl]
            · simp [WaveNode.isReadyToProcess, WaveNode.updateFileSampleRate, h, hr, hc, h0,
                hpos, hl]
        · have hp : 0 < node.audioFileSampleRate := lt_of_le_of_ne hrate (Ne.symm h0)
          simp [WaveNode.isReadyToProcess, h, hr, hc, h0, hp]
    · by_cases h0 : node.audioFileSampleRate = 0
      · by_cases hpos : reader.getSampleRate ≤ 0
        · simp [WaveNode.isReadyToProcess, WaveNode.updateFileSampleRate, h, hr, h0, hpos]
        · by_cases hl : ext.isEmpty node.loopSection = true
          · simp [WaveNode.isReadyToProcess, WaveNode.updateFileSampleRate, h, hr, h0, hpos, hl]
          · simp [WaveNode.isReadyToProcess, WaveNode.updateFileSampleRate, h, hr, h0, hpos, hl]
      · have hp : 0 < node.audioFileSampleRate := lt_of_le_of_ne hrate (Ne.symm h0)
        simp [WaveNode.isReadyToProcess, h, hr, h0, hp]

/-- C10 at concrete nodes.  A null file with no reader is ready and untouched.
A non-null file whose reader cannot be created yet is not ready.  A non-null
file without a reader and with no rate known, for which `createReader` now
gives a reader at 48000 Hz, gets that reader, is probed, stores 48000 and is
ready. -/
theorem isReadyToProcess_spec_witness :
    ({ exampleNode 0 true with
        audioFile := { isNull := true, getNumChannels := 0 }, reader := none }
      : WaveNode Unit).isReadyToProcess (exampleExternals true) (some (exampleReader 48000))
        = (true, { exampleNode 0 true with
            audioFile := { isNull := true, getNumChannels := 0 }, reader := none })
      ∧ (({ exampleNode 0 true with reader := none }
          : WaveNode Unit).isReadyToProcess (exampleExternals true) none).1 = false
      ∧ (({ exampleNode 0 true with reader := none }
          : WaveNode Unit).isReadyToProcess (exampleExternals true)
            (some (exampleReader 48000))).2.audioFileSampleRate = 48000
      ∧ (({ exampleNode 0 true with reader := none }
          : WaveNode Unit).isReadyToProcess (exampleExternals true)
            (some (exampleReader 48000))).1 = true := by
  have hnull := (isReadyToProcess_spec (exampleExternals true)
    ({ exampleNode 0 true with
        audioFile := { isNull := true, getNumChannels := 0 }, reader := none } : WaveNode Unit)
    (some (exampleReader 48000)) (by norm_num [exampleNode])).1 rfl
  have hnone := (isReadyToProcess_spec (exampleExternals true)
    ({ exampleNode 0 true with reader := none } : WaveNode Unit) none
    (by norm_num [exampleNode])).2 rfl
  have hprobe := (isReadyToProcess_spec (exampleExternals true)
    ({ exampleNode 0 true with reader := none } : WaveNode Unit) (some (exampleReader 48000))
    (by norm_num [exampleNode])).2 rfl
  have hr48 : (({ exampleNode 0 true with reader := none }
      : WaveNode Unit).isReadyToProcess (exampleExternals true)
        (some (exampleReader 48000))).2.audioFileSampleRate = 48000 := by
    rw [hprobe.2.1]
    simp [exampleNode, exampleReader]
  refine ⟨hnull, ?_, hr48, ?_⟩
  · apply hnone.2.2.mpr
    left
    have hm := hnone.1
    simpa [exampleNode] using hm
  · have hsome : (({ exampleNode 0 true with reader := none }
        : WaveNode Unit).isReadyToProcess (exampleExternals true)
          (some (exampleReader 48000))).2.reader ≠ none := by
      intro hn
      have hm := hprobe.1
      rw [hn] at hm
      simp [exampleNode] at hm
    by_contra hne
    have hf : (({ exampleNode 0 true with reader := none }
        : WaveNode Unit).isReadyToProcess (exampleExternals true)
          (some (exampleReader 48000))).1 = false := by simpa using hne
    rcases hprobe.2.2.mp hf with h1 | h2
    · exact hsome h1
    · rw [hr48] at h2
      norm_num at h2

/-! ## Size of the channel state array (C11) -/

/-- The sample rate probe changes neither the channel states, the requested
channel set nor the audio file. -/
theorem updateFileSampleRate_keeps (ext : Externals R) (node : WaveNode R) :
    (node.updateFileSampleRate ext).2.channelState = node.channelState
      ∧ (node.updateFileSampleRate ext).2.channelsToUse = node.channelsToUse
      ∧ (node.updateFileSampleRate ext).2.audioFile = node.audioFile := by
  unfold WaveNode.updateFileSampleRate
  rcases hr : node.reader with _ | reader
  · simp
  · simp only []
    split_ifs <;> simp

/-- A call of `isReadyToProcess` changes neither the channel states, the
requested channel set nor the audio file: it never grows the array. -/
theorem isReadyToProcess_keeps (ext : Externals R) (node : WaveNode R)
    (created : Option Reader) :
    (node.isReadyToProcess ext created).2.channelState = node.channelState
      ∧ (node.isReadyToProcess ext created).2.channelsToUse = node.channelsToUse
      ∧ (node.isReadyToProcess ext created).2.audioFile = node.audioFile := by
  unfold WaveNode.isReadyToProcess
  by_cases hnull : node.audioFile.isNull = true
  · simp [hnull]
  · simp only [hnull, Bool.false_eq_true, if_false]
    rcases hr : node.reader with _ | reader
    · rcases created with _ | made
      · simp
      · simp only []
        have hk := updateFileSampleRate_keeps ext ({ node with reader := some made })
        split_ifs <;> simp [hk]
    · simp only [hr]
      have hk := updateFileSampleRate_keeps ext node
      split_ifs <;> simp [hk]

/-- Any number of `isReadyToProcess` calls leaves the channel states, the
requested channel set and the audio file as they were. -/
theorem isReadyToProcessCalls_keeps (ext : Externals R) (outcomes : List (Option Reader))
    (node : WaveNode R) :
    (node.isReadyToProcessCalls ext outcomes).channelState = node.channelState
      ∧ (node.isReadyToProcessCalls ext outcomes).channelsToUse = node.channelsToUse
      ∧ (node.isReadyToProcessCalls ext outcomes).audioFile = node.audioFile := by
  induction outcomes generalizing node with
  | nil => simp [WaveNode.isReadyToProcessCalls]
  | cons created rest ih =>
    have h1 := isReadyToProcess_keeps ext node created
    have h2 := ih (node.isReadyToProcess ext created).2
    simp only [WaveNode.isReadyToProcessCalls]
    exact ⟨h2.1.trans h1.1, h2.2.1.trans h1.2.1, h2.2.2.trans h1.2.2⟩

/-- With a reader from `createReader`, `prepareToPlay` makes as many channel
states as the larger of the requested channel set's size and the reader's
channel count; the requested channel set and the audio file stay. -/
theorem prepareToPlay_with_reader (ext : Externals R) (node : WaveNode R)
    (info : PlaybackInitialisationInfo) (reader : Reader) :
    (node.prepareToPlay ext info (some reader)).channelState.length
        = (max (node.channelsToUse.size : Int) reader.getNumChannels).toNat
      ∧ (node.prepareToPlay ext info (some reader)).channelsToUse = node.channelsToUse
      ∧ (node.prepareToPlay ext info (some reader)).audioFile = node.audioFile := by
  unfold WaveNode.prepareToPlay WaveNode.updateFileSampleRate
  simp only []
  split_ifs <;> simp

/-- Without a reader from `createReader`, `prepareToPlay` leaves the array of
channel states empty. -/
theorem prepareToPlay_without_reader (ext : Externals R) (node : WaveNode R)
    (info : PlaybackInitialisationInfo) :
    (node.prepareToPlay ext info none).channelState = []
      ∧ (node.prepareToPlay ext info none).channelsToUse = node.channelsToUse
      ∧ (node.prepareToPlay ext info none).audioFile = node.audioFile := by
  simp [WaveNode.prepareToPlay, WaveNode.updateFileSampleRate]

/-- C11 as the claim states it fails.  The example clip (non-null file of two
channels, two channels requested) is prepared while `createReader` gives no
reader, and one `isReadyToProcess` call follows whose attempt fails as well.
In the state reached the array of channel states is empty, while the negotiated
channel count is `2`. -/
theorem channelState_without_reader_counterexample :
    (((exampleNode 0 true).prepareToPlay (exampleExternals true) ⟨48000⟩
        none).isReadyToProcessCalls (exampleExternals true) [none]).channelState.length = 0
      ∧ (((exampleNode 0 true).prepareToPlay (exampleExternals true) ⟨48000⟩
          none).isReadyToProcessCalls (exampleExternals true)
            [none]).getNodeProperties.numberOfChannels = 2 := by
  refine ⟨?_, ?_⟩
  · rw [(isReadyToProcessCalls_keeps _ _ _).1, (prepareToPlay_without_reader _ _ _).1]
    rfl
  · simp only [WaveNode.getNodeProperties, (isReadyToProcessCalls_keeps _ _ _).2.1,
      (isReadyToProcessCalls_keeps _ _ _).2.2, (prepareToPlay_without_reader _ _ _).2.1,
      (prepareToPlay_without_reader _ _ _).2.2]
    decide

/-- C11, amended.  When `createReader` gives `prepareToPlay` a reader, and the
requested channel set or the reader has at least one channel, then in every
state reached by `prepareToPlay` followed by any number of `isReadyToProcess`
calls, for every outcome of their reader-creation attempts, the number of
per-channel states is at least the negotiated channel count
`getNodeProperties().numberOfChannels`. -/
theorem channelState_covers_negotiated_channels (ext : Externals R) (node : WaveNode R)
    (info : PlaybackInitialisationInfo) (reader : Reader)
    (outcomes : List (Option Reader))
    (h : 1 ≤ node.channelsToUse.size ∨ 1 ≤ reader.getNumChannels) :
    ((node.prepareToPlay ext info (some reader)).isReadyToProcessCalls ext
        outcomes).getNodeProperties.numberOfChannels
      ≤ (((node.prepareToPlay ext info (some reader)).isReadyToProcessCalls ext
          outcomes).channelState.length : Int) := by
  have hk := isReadyToProcessCalls_keeps ext outcomes (node.prepareToPlay ext info (some reader))
  have hp := prepareToPlay_with_reader ext node info reader
  simp only [WaveNode.getNodeProperties, hk.1, hk.2.1, hk.2.2, hp.1, hp.2.1, hp.2.2, jlimit,
    max_def]
  split_ifs <;> omega

/-- C11, amended, on the example clip: prepared with a reader of two channels
and followed by three `isReadyToProcess` calls, it has at least as many channel
states as negotiated channels. -/
theorem channelState_covers_negotiated_channels_witness :
    (((exampleNode 0 true).prepareToPlay (exampleExternals true) ⟨48000⟩
        (some (exampleReader 48000))).isReadyToProcessCalls (exampleExternals true)
          [none, some (exampleReader 48000), none]).getNodeProperties.numberOfChannels
      ≤ ((((exampleNode 0 true).prepareToPlay (exampleExternals true) ⟨48000⟩
          (some (exampleReader 48000))).isReadyToProcessCalls (exampleExternals true)
            [none, some (exampleReader 48000), none]).channelState.length : Int) :=
  channelState_covers_negotiated_channels (exampleExternals true) (exampleNode 0 true) ⟨48000⟩
    (exampleReader 48000) [none, some (exampleReader 48000), none]
    (Or.inl (by norm_num [exampleNode]))

/-- The late creation of the reader on the example clip: prepared while
`createReader` gives no reader, the node gets a reader of two channels at 48000
Hz from the next `isReadyToProcess` call.  It then reports ready and has a
reader, so that `processSection` goes on to its channel loop, but the array of
channel states is still empty while the negotiated channel count is `2`: the
assertion `numChannels <= channelState.size()` of the source does not hold. -/
theorem channelState_empty_after_late_reader :
    ((exampleNode 0 true).prepareToPlay (exampleExternals true) ⟨48000⟩ none).audioFile.isNull
        = false
      ∧ (((exampleNode 0 true).prepareToPlay (exampleExternals true) ⟨48000⟩
          none).isReadyToProcess (exampleExternals true) (some (exampleReader 48000))).1 = true
      ∧ (((exampleNode 0 true).prepareToPlay (exampleExternals true) ⟨48000⟩
          none).isReadyToProcessCalls (exampleExternals true)
            [some (exampleReader 48000)]).reader.isSome = true
      ∧ (((exampleNode 0 true).prepareToPlay (exampleExternals true) ⟨48000⟩
          none).isReadyToProcessCalls (exampleExternals true)
            [some (exampleReader 48000)]).channelState.length = 0
      ∧ (((exampleNode 0 true).prepareToPlay (exampleExternals true) ⟨48000⟩
          none).isReadyToProcessCalls (exampleExternals true)
            [some (exampleReader 48000)]).getNodeProperties.numberOfChannels = 2 := by
  refine ⟨rfl, ?_, ?_, ?_, ?_⟩
  · norm_num [WaveNode.prepareToPlay, WaveNode.isReadyToProcess, WaveNode.updateFileSampleRate,
      exampleNode, exampleReader, exampleExternals]
  · norm_num [WaveNode.prepareToPlay, WaveNode.isReadyToProcess, WaveNode.isReadyToProcessCalls,
      WaveNode.updateFileSampleRate, exampleNode, exampleReader, exampleExternals]
  · rw [(isReadyToProcessCalls_keeps _ _ _).1, (prepareToPlay_without_reader _ _ _).1]
    rfl
  · simp only [WaveNode.getNodeProperties, (isReadyToProcessCalls_keeps _ _ _).2.1,
      (isReadyToProcessCalls_keeps _ _ _).2.2, (prepareToPlay_without_reader _ _ _).2.1,
      (prepareToPlay_without_reader _ _ _).2.2]
    decide

/-! ## The remembered last sample (C12) -/

/-- The path of `processSection` through the channel loop: the channel states
afterwards are the ones the loop leaves. -/
theorem processSection_channelState_of_ratio_pos (ext : Externals R) (node node1 : WaveNode R)
    (pc : ProcessContext) (timelineRange : Range Int) (reader : Reader)
    (hin : ¬ node.sectionIsOutside timelineRange)
    (hprobe : node.probeFileSampleRate ext = (true, node1))
    (hreader : node1.reader = some reader)
    (hratio : 0 < node1.ratio timelineRange pc.audio.numSamples) :
    (node.processSection ext pc timelineRange).1.channelState
      = (channelLoop ext (node1.ratio timelineRange pc.audio.numSamples)
          (fileDataAfterRead (node1.readBlock ext reader timelineRange pc.audio.numChannels))
          pc.audio.numSamples
          (gains node1.clipLevel pc.audio.numChannels
            node1.playHeadState.playHead.isUserDragging)
          (lastSampleFadeLength
            (node1.readBlock ext reader timelineRange pc.audio.numChannels).1
            node1.playHeadState pc.audio.numSamples)
          pc.audio.numChannels (node1.channelState, pc.audio.data)).1 := by
  simp [WaveNode.processSection, hin, hprobe, hreader, not_le.mpr hratio]

/-- On the path through the channel loop, the state of a channel of the block
that has one remembers the last sample of the channel as `processChannel`
left it, that is before the clearing step. -/
theorem processSection_lastSample_before_clearing (ext : Externals R)
    (node node1 : WaveNode R) (pc : ProcessContext) (timelineRange : Range Int)
    (reader : Reader) (state : PerChannelState R)
    (hin : ¬ node.sectionIsOutside timelineRange)
    (hprobe : node.probeFileSampleRate ext = (true, node1))
    (hreader : node1.reader = some reader)
    (hratio : 0 < node1.ratio timelineRange pc.audio.numSamples)
    (c : Nat) (hc : c < pc.audio.numChannels) (hstate : node.channelState[c]? = some state) :
    Option.map PerChannelState.lastSample
        (node.processSection ext pc timelineRange).1.channelState[c]?
      = some ((processChannel ext (node1.ratio timelineRange pc.audio.numSamples)
          (fileDataAfterRead (node1.readBlock ext reader timelineRange pc.audio.numChannels) c)
          (pc.audio.data c) pc.audio.numSamples
          (if c % 2 = 0 then
            (gains node.clipLevel pc.audio.numChannels
              node.playHeadState.playHead.isUserDragging).1
          else
            (gains node.clipLevel pc.audio.numChannels
              node.playHeadState.playHead.isUserDragging).2)
          (lastSampleFadeLength
            (node1.readBlock ext reader timelineRange pc.audio.numChannels).1
            node.playHeadState pc.audio.numSamples)
          state).2 (pc.audio.numSamples - 1)) := by
  have hf := probeFileSampleRate_fields ext node
  rw [hprobe] at hf
  obtain ⟨_, hf2, hf3, hf4, _⟩ := hf
  simp only at hf2 hf3 hf4
  rw [processSection_channelState_of_ratio_pos ext node node1 pc timelineRange reader hin hprobe
    hreader hratio,
    (channelLoop_lt ext _ _ _ _ _ pc.audio.numChannels (node1.channelState, pc.audio.data)
      c hc state (by simpa [hf3] using hstate)).1, hf2, hf4]
  rfl

/-- File rate 48000 Hz: the block `[143998, 144002)` maps to four file samples. -/
theorem exampleNode_numFileSamples_end_48000 :
    (exampleNode 48000 true).numFileSamples ⟨143998, 144002⟩ = 4 := by
  norm_num [WaveNode.numFileSamples, WaveNode.editTimeToFileSample, sampleRangeToTime,
    sampleToTime, exampleNode, toInt64, toInt32]

/-- C12 as the claim states it fails.  The example clip, whose edit range ends
at sample 144000, renders the contiguous block `[143998, 144002)` with a
successful read and ratio `1`.  Channel `0` holds `8` in all four samples after
the resampling step, so its state remembers `8`; the clearing step then zeroes
samples `2` and `3`, so the final sample of the returned block is `0`. -/
theorem processSection_lastSample_counterexample :
    0 < (exampleNode 48000 true).ratio ⟨143998, 144002⟩ (exampleBlock 4 7).audio.numSamples
      ∧ Option.map PerChannelState.lastSample
          ((exampleNode 48000 true).processSection (exampleExternals true) (exampleBlock 4 7)
            ⟨143998, 144002⟩).1.channelState[0]? = some 8
      ∧ ((exampleNode 48000 true).processSection (exampleExternals true) (exampleBlock 4 7)
          ⟨143998, 144002⟩).2.data 0 ((exampleBlock 4 7).audio.numSamples - 1) = 0 := by
  have hin := exampleNode_not_outside 48000 143998 144002 (by norm_num) (by norm_num)
  have hratio : 0 < (exampleNode 48000 true).ratio ⟨143998, 144002⟩
      (exampleBlock 4 7).audio.numSamples := by
    norm_num [WaveNode.ratio, exampleNode_numFileSamples_end_48000, exampleBlock]
  refine ⟨hratio, ?_, ?_⟩
  · rw [processSection_lastSample_before_clearing (exampleExternals true)
      (exampleNode 48000 true) (exampleNode 48000 true) (exampleBlock 4 7) ⟨143998, 144002⟩
      (exampleReader 48000) { resampler := (), lastSample := 1 } hin
      (exampleNode_probe 48000 true true (by norm_num)) rfl hratio 0
      (by norm_num [exampleBlock]) rfl, processChannel_data]
    norm_num [exampleNode_readBlock_flag, lastSampleFadeLength, exampleBlock, exampleNode,
      exampleExternals, fileDataAfterRead, WaveNode.readBlock, gains]
  · exact processSection_data_outside (exampleExternals true) (exampleNode 48000 true)
      (exampleNode 48000 true) (exampleBlock 4 7) ⟨143998, 144002⟩ hin
      (exampleNode_probe 48000 true true (by norm_num)) hratio
      (by norm_num [exampleBlock]) (by norm_num [exampleNode])
      0 3 (by norm_num [exampleBlock]) (by norm_num [exampleBlock])
      (Or.inr (by norm_num [exampleNode]))

/-- C12, amended.  Take a block that overlaps the edit range with a reader
present, whose rate guard lets processing go on and that maps to a file range
of positive length, with a timeline range as long as the destination buffer.
For every channel of the block that has a per-channel state, the state's
`lastSample` afterwards is the final sample of the channel after the resampling
step and any crossfade, as it stands before the clearing step; and when the
final sample's timeline position lies inside the edit range in samples, so
that it is not cleared, `lastSample` equals the final sample of the channel in
the block as returned. -/
theorem processSection_lastSample (ext : Externals R) (node node1 : WaveNode R)
    (pc : ProcessContext) (timelineRange : Range Int) (reader : Reader)
    (state : PerChannelState R)
    (hin : ¬ node.sectionIsOutside timelineRange)
    (hprobe : node.probeFileSampleRate ext = (true, node1))
    (hreader : node1.reader = some reader)
    (hratio : 0 < node1.ratio timelineRange pc.audio.numSamples)
    (hlen : timelineRange.getEnd = timelineRange.getStart + (pc.audio.numSamples : Int))
    (c : Nat) (hc : c < pc.audio.numChannels) (hstate : node.channelState[c]? = some state) :
    Option.map PerChannelState.lastSample
          (node.processSection ext pc timelineRange).1.channelState[c]?
        = some ((processChannel ext (node1.ratio timelineRange pc.audio.numSamples)
            (fileDataAfterRead
              (node1.readBlock ext reader timelineRange pc.audio.numChannels) c)
            (pc.audio.data c) pc.audio.numSamples
            (if c % 2 = 0 then
              (gains node.clipLevel pc.audio.numChannels
                node.playHeadState.playHead.isUserDragging).1
            else
              (gains node.clipLevel pc.audio.numChannels
                node.playHeadState.playHead.isUserDragging).2)
            (lastSampleFadeLength
              (node1.readBlock ext reader timelineRange pc.audio.numChannels).1
              node.playHeadState pc.audio.numSamples)
            state).2 (pc.audio.numSamples - 1))
      ∧ ((node.editPositionInSamples.getStart
              ≤ timelineRange.getStart + ((pc.audio.numSamples - 1 : Nat) : Int)
            ∧ timelineRange.getStart + ((pc.audio.numSamples - 1 : Nat) : Int)
              < node.editPositionInSamples.getEnd) →
          Option.map PerChannelState.lastSample
              (node.processSection ext pc timelineRange).1.channelState[c]?
            = some ((node.processSection ext pc timelineRange).2.data c
                (pc.audio.numSamples - 1))) := by
  have hA := processSection_lastSample_before_clearing ext node node1 pc timelineRange reader
    state hin hprobe hreader hratio c hc hstate
  refine ⟨hA, ?_⟩
  intro hpos
  rw [hA, processSection_data_inside ext node node1 pc timelineRange reader state hin hprobe
    hreader hratio hlen c (pc.audio.numSamples - 1) hc hstate hpos]

/-- C12, amended, on the example clip: after the contiguous block
`[48000, 48004)`, inside the edit range, the state of channel `0` remembers the
final sample of channel `0` of the returned block. -/
theorem processSection_lastSample_witness :
    Option.map PerChannelState.lastSample
        ((exampleNode 48000 true).processSection (exampleExternals true) (exampleBlock 4 7)
          ⟨48000, 48004⟩).1.channelState[0]?
      = some (((exampleNode 48000 true).processSection (exampleExternals true)
          (exampleBlock 4 7) ⟨48000, 48004⟩).2.data 0 ((exampleBlock 4 7).audio.numSamples - 1)) :=
  (processSection_lastSample (exampleExternals true) (exampleNode 48000 true)
    (exampleNode 48000 true) (exampleBlock 4 7) ⟨48000, 48004⟩ (exampleReader 48000)
    { resampler := (), lastSample := 1 }
    (exampleNode_not_outside 48000 48000 48004 (by norm_num) (by norm_num))
    (exampleNode_probe 48000 true true (by norm_num)) rfl
    (by norm_num [WaveNode.ratio, exampleNode_numFileSamples_inside_48000, exampleBlock])
    (by norm_num [exampleBlock]) 0 (by norm_num [exampleBlock]) rfl).2
    (by norm_num [exampleBlock, exampleNode])

end tracktion_engine
